import Mathlib

/-!
Shallow embedding of the THUNDERBIRD BBS command core.

The embedding follows the latest dispatcher revision `src/bbsLogic.js`
(session store, command parser, broadcast queue, command dispatch), the
number-guess game module `src/unnamed/part_003`, and — for the SETCOLOR
command, whose `case` block is present only in the earlier dispatcher
revision `src/unnamed/part_001` (lines 477-524) — that revision.

JavaScript strings are modelled by Lean `String`, with the handful of
JS string operations the code uses (`trim`, `split(/\s+/)`, `split(' ')`,
`substring`, `indexOf`, `toUpperCase`, `toLowerCase`, `startsWith`,
`parseInt`) re-implemented below on `List Char` with JS semantics.
External collaborators are modelled abstractly, faithful to their
interface: the SQLite store becomes a pure in-memory value threaded
through the dispatcher (its serialized, error-free execution is the
model; the only store failure the code distinguishes, the UNIQUE
violation on `file_listings(area_id, filename)`, is modelled exactly);
`bcrypt` becomes an injective tagging function; `Math.random`'s draw and
`new Date()` become explicit `Nat` inputs of `processInput`; the
locale-dependent `toLocaleTimeString`/`toLocaleString`/`toLocaleDateString`
renderings become decimal rendering of the model timestamp.
-/

/-- Single-quote character as a string (used to build response literals). -/
def sqm : String := (Char.ofNat 39).toString

/-- Whitespace test matching the characters JS `\s` can meet in this code. -/
def isWs (c : Char) : Bool :=
  c = ' ' || c = '\t' || c = '\n' || c = '\r' || c = '\x0b' || c = '\x0c'

/-- Trim on character lists: drop leading and trailing whitespace. -/
def trimChars (l : List Char) : List Char :=
  ((l.dropWhile isWs).reverse.dropWhile isWs).reverse

/-- JS `String.prototype.trim`. -/
def jsTrim (s : String) : String := String.mk (trimChars s.data)

/-- Split on runs of whitespace, auxiliary: `acc` is the current token, reversed. -/
def splitWsAux : List Char → List Char → List (List Char)
  | [], acc => if acc.isEmpty then [] else [acc.reverse]
  | c :: cs, acc =>
    if isWs c then
      if acc.isEmpty then splitWsAux cs [] else acc.reverse :: splitWsAux cs []
    else splitWsAux cs (c :: acc)

/-- JS `str.split(/\s+/)` on an already-trimmed string: whitespace-run tokens. -/
def splitWs (s : String) : List String := (splitWsAux s.data []).map String.mk

/-- Split on every single occurrence of a character, keeping empty pieces
(JS `str.split(' ')` semantics). -/
def splitChAux (t : Char) : List Char → List Char → List (List Char)
  | [], acc => [acc.reverse]
  | c :: cs, acc =>
    if c = t then acc.reverse :: splitChAux t cs [] else splitChAux t cs (c :: acc)

/-- JS `str.split(c)` for a single-character separator. -/
def splitCh (t : Char) (s : String) : List String :=
  (splitChAux t s.data []).map String.mk

/-- JS `str.substring(i)` (clamping, as JS does). -/
def jsSubstringFrom (s : String) (i : Nat) : String := String.mk (s.data.drop i)

/-- JS `str.substring(a, b)` for `a ≤ b` (the only way the code calls it). -/
def jsSubstring (s : String) (a b : Nat) : String :=
  String.mk ((s.data.take b).drop a)

/-- ASCII upper-casing, JS `toUpperCase` on the characters this code meets. -/
def jsToUpper (s : String) : String := String.mk (s.data.map Char.toUpper)

/-- ASCII lower-casing, JS `toLowerCase` on the characters this code meets. -/
def jsToLower (s : String) : String := String.mk (s.data.map Char.toLower)

/-- Whether the character list `p` is an initial segment of `l`. -/
def listStarts : List Char → List Char → Bool
  | [], _ => true
  | _ :: _, [] => false
  | p :: ps, c :: cs => p = c && listStarts ps cs

/-- JS `s.startsWith(p)`. -/
def jsStartsWith (s p : String) : Bool := listStarts p.data s.data

/-- First index at which `p` occurs in `l`, if any. -/
def idxOfChars (p : List Char) : List Char → Option Nat
  | [] => if p.isEmpty then some 0 else none
  | c :: cs =>
    if listStarts p (c :: cs) then some 0
    else (idxOfChars p cs).map (· + 1)

/-- JS `s.indexOf(p)` (with `-1` modelled as `none`). -/
def jsIndexOf (s p : String) : Option Nat := idxOfChars p.data s.data

/-- Decimal value of a digit run. -/
def decVal (l : List Char) : Nat := l.foldl (fun a c => 10 * a + (c.toNat - 48)) 0

/-- Hexadecimal digit test. -/
def isHexDigit (c : Char) : Bool :=
  c.isDigit || ('a' ≤ c && c ≤ 'f') || ('A' ≤ c && c ≤ 'F')

/-- Hexadecimal value of one digit. -/
def hexDigitVal (c : Char) : Nat :=
  if c.isDigit then c.toNat - 48
  else if 'a' ≤ c && c ≤ 'f' then c.toNat - 87
  else c.toNat - 55

/-- Hexadecimal value of a digit run. -/
def hexVal (l : List Char) : Nat := l.foldl (fun a c => 16 * a + hexDigitVal c) 0

/-- JS `parseInt(s)` with no radix argument: skip leading whitespace, optional
sign, then either a `0x`/`0X` hexadecimal literal or the longest leading
decimal-digit run; no digit at all is `NaN`, modelled as `none`. -/
def jsParseInt (s : String) : Option Int :=
  let l := s.data.dropWhile isWs
  let signAndRest : Int × List Char :=
    match l with
    | '+' :: r => (1, r)
    | '-' :: r => (-1, r)
    | _ => (1, l)
  let sign := signAndRest.1
  let rest := signAndRest.2
  match rest with
  | '0' :: x :: r =>
    if x = 'x' || x = 'X' then
      let ds := r.takeWhile isHexDigit
      if ds.isEmpty then none else some (sign * (hexVal ds : Int))
    else
      let ds := ('0' :: x :: r).takeWhile Char.isDigit
      some (sign * (decVal ds : Int))
  | _ =>
    let ds := rest.takeWhile Char.isDigit
    if ds.isEmpty then none else some (sign * (decVal ds : Int))

/-- JS `arr.join(sep)` for string arrays. -/
def jsJoin (sep : String) : List String → String
  | [] => ""
  | [t] => t
  | t :: ts => t ++ sep ++ jsJoin sep ts

/-- Lookup in an association list modelling a JS object keyed by strings. -/
def assocGet {α : Type} (l : List (String × α)) (k : String) : Option α :=
  (l.find? (fun p => p.1 = k)).map (·.2)

/-- Assignment `obj[k] = v` on a JS object: replace the first binding of `k`,
or append a fresh one. -/
def assocSet {α : Type} : List (String × α) → String → α → List (String × α)
  | [], k, v => [(k, v)]
  | (k', v') :: t, k, v =>
    if k' = k then (k, v) :: t else (k', v') :: assocSet t k v

/-- The JS `delete obj[k]`: drop the first binding of `k`. -/
def assocRemove {α : Type} : List (String × α) → String → List (String × α)
  | [], _ => []
  | (k', v') :: t, k => if k' = k then t else (k', v') :: assocRemove t k

/-- The `COLOR_MAP` table of `bbsLogic.js` (insertion order preserved). -/
def COLOR_MAP : List (String × String) :=
  [("reset", "\x1B[0m"),
   ("black", "\x1B[30m"), ("red", "\x1B[31m"), ("green", "\x1B[32m"),
   ("yellow", "\x1B[33m"),
   ("blue", "\x1B[34m"), ("magenta", "\x1B[35m"), ("cyan", "\x1B[36m"),
   ("white", "\x1B[37m"),
   ("bright_black", "\x1B[1;30m"), ("bright_red", "\x1B[1;31m"),
   ("bright_green", "\x1B[1;32m"), ("bright_yellow", "\x1B[1;33m"),
   ("bright_blue", "\x1B[1;34m"), ("bright_magenta", "\x1B[1;35m"),
   ("bright_cyan", "\x1B[1;36m"), ("bright_white", "\x1B[1;37m")]

/-- `AVAILABLE_COLORS`: every `COLOR_MAP` key but `reset`. -/
def AVAILABLE_COLORS : List String :=
  (COLOR_MAP.map (·.1)).filter (fun c => c ≠ "reset")

/-- `CUSTOMIZABLE_ELEMENTS` of the SETCOLOR revision: element key and blurb. -/
def CUSTOMIZABLE_ELEMENTS : List (String × String) :=
  [("prompt", "The command prompt symbol (e.g., >)"),
   ("username", "Usernames in messages, lists, etc."),
   ("timestamp", "Timestamps in messages, lists, etc.")]

/-- `DEFAULT_COLORS`: element key to default ANSI code (insertion order). -/
def DEFAULT_COLORS : List (String × String) :=
  [("prompt", "\x1B[1;32m"),
   ("username_output", "\x1B[1;33m"),
   ("timestamp_output", "\x1B[36m")]

/-- The reverse lookup `Object.keys(COLOR_MAP).find(name => COLOR_MAP[name]
=== DEFAULT_COLORS[el]) || 'white'` used to seed default preference names. -/
def defaultColorName (el : String) : String :=
  match assocGet DEFAULT_COLORS el with
  | none => "white"
  | some code =>
    match COLOR_MAP.find? (fun p => p.2 = code) with
    | some p => p.1
    | none => "white"

/-- Default `session.prefs`: one binding per `DEFAULT_COLORS` key, holding the
default color name (built the same way in `createSession`, LOGIN and LOGOUT). -/
def defaultPrefs : List (String × String) :=
  DEFAULT_COLORS.map (fun p => (p.1, defaultColorName p.1))

/-- The bare ANSI constants the dispatcher references (declared in the
companion revision, `src/database.js` lines 291-297). -/
def ANSI_RESET : String := "\x1b[0m"

def ANSI_BRIGHT : String := "\x1b[1m"

def ANSI_GREEN : String := "\x1b[32m"

def ANSI_YELLOW : String := "\x1b[33m"

def ANSI_CYAN : String := "\x1b[36m"

def ANSI_MAGENTA : String := "\x1b[35m"

/-- State of the one mini-game (`numberGuess`); the `name: 'numberGuess'` tag
of the source object is implicit in the type. -/
structure GameState where
  targetNumber : Nat
  attempts : Nat
  maxAttempts : Nat
deriving Repr, DecidableEq

/-- One in-memory session record of `bbsLogic.js`. -/
structure Session where
  username : String
  loggedIn : Bool
  connectionType : String
  userId : Option Nat
  userRole : Option String
  currentBoardId : Nat
  currentBoardName : String
  lastSeenBroadcastIndex : Int
  currentGame : Option GameState
  prefs : List (String × String)
deriving Repr, DecidableEq

/-- One entry of the global broadcast queue (`{text, timestamp}`). -/
structure BMsg where
  text : String
  timestamp : Nat
deriving Repr, DecidableEq

/-- Row of `users`. -/
structure UserRow where
  id : Nat
  username : String
  password_hash : String
  registration_date : Nat
  role : String
deriving Repr, DecidableEq

/-- Row of `boards`. -/
structure BoardRow where
  id : Nat
  name : String
  description : String
deriving Repr, DecidableEq

/-- Row of `messages` (public board posts). -/
structure MsgRow where
  id : Nat
  board_id : Nat
  user_id : Nat
  body : String
  timestamp : Nat
deriving Repr, DecidableEq

/-- Row of `private_messages`. -/
structure PMRow where
  id : Nat
  sender_id : Nat
  recipient_id : Nat
  subject : String
  body : String
  timestamp : Nat
  is_read : Bool
deriving Repr, DecidableEq

/-- Row of `file_areas`. -/
structure AreaRow where
  id : Nat
  name : String
  description : String
deriving Repr, DecidableEq

/-- Row of `file_listings`. -/
structure FileRow where
  id : Nat
  area_id : Nat
  filename : String
  description : String
  uploader_user_id : Nat
  upload_date : Nat
  download_count : Nat
deriving Repr, DecidableEq

/-- Row of `user_preferences` (one per user id; absent columns are `none`). -/
structure PrefRow where
  user_id : Nat
  color_prompt : Option String
  color_username_output : Option String
  color_timestamp_output : Option String
deriving Repr, DecidableEq

/-- The relational store, as the pure value the serialized SQLite connection
maintains, together with the AUTOINCREMENT counters. -/
structure DB where
  users : List UserRow
  boards : List BoardRow
  messages : List MsgRow
  private_messages : List PMRow
  file_areas : List AreaRow
  file_listings : List FileRow
  user_preferences : List PrefRow
  nextUserId : Nat
  nextMessageId : Nat
  nextPMId : Nat
  nextFileId : Nat
deriving Repr, DecidableEq

/-- Whole process state: session store, broadcast queue, store, and the
`generalBoardCache` populated at startup. -/
structure BBSState where
  sessions : List (String × Session)
  broadcasts : List BMsg
  db : DB
  generalBoardCache : Option (Nat × String)
deriving Repr, DecidableEq

/-- How a dispatch case delivers its response: `normal` falls through to the
`broadcastsToPrepend + responseString` tail of `processInput`, `direct` is a
`return` from inside the `case` (LOGIN success). -/
inductive DOut where
  | normal (resp : String)
  | direct (resp : String)
deriving Repr, DecidableEq

/-- `getAppliedColor(session, elementType)` of `bbsLogic.js`. -/
def getAppliedColor (session : Session) (elementType : String) : String :=
  let colorName :=
    match assocGet session.prefs elementType with
    | some c => c
    | none => defaultColorName elementType
  match assocGet COLOR_MAP colorName with
  | some code => code
  | none => "\x1B[37m"

/-- `isSysOp(session)`. -/
def isSysOp (session : Session) : Bool := session.userRole = some "sysop"

/-- `setDefaultBoardForSession(session)`: use the cache, else the hard-coded
fallback board 1 / "General". -/
def setDefaultBoardForSession (cache : Option (Nat × String))
    (session : Session) : Session :=
  match cache with
  | some (i, n) => { session with currentBoardId := i, currentBoardName := n }
  | none => { session with currentBoardId := 1, currentBoardName := "General" }

/-- `parseCommand(inputString)`: trim, split on whitespace runs, upper-case the
first token. -/
def parseCommand (inputString : String) : String × List String :=
  if jsTrim inputString = "" then ("", [])
  else
    match splitWs (jsTrim inputString) with
    | [] => ("", [])
    | c :: rest => (jsToUpper c, rest)

/-- The abstract password-hashing primitive (`bcrypt.hash`), modelled as an
injective tagging; the dispatcher only ever compares against it. -/
def bcryptHash (password : String) : String := "bcrypt$" ++ password

/-- The abstract `bcrypt.compare`: succeeds exactly on the stored tag. -/
def bcryptCompare (password hash : String) : Bool := hash = bcryptHash password

/-- Locale time rendering (`toLocaleTimeString`), modelled as decimal. -/
def fmtTime (n : Nat) : String := toString n

/-- Locale date-time rendering (`toLocaleString`), modelled as decimal. -/
def fmtDateTime (n : Nat) : String := toString n

/-- Locale date rendering (`toLocaleDateString`), modelled as decimal. -/
def fmtDate (n : Nat) : String := toString n

/-- Insertion step of a stable descending sort on a `Nat` key (the model of
SQL `ORDER BY ... DESC`; SQLite leaves the order of equal keys open, this
model keeps input order for them). -/
def insDescNat {α : Type} (key : α → Nat) (x : α) : List α → List α
  | [] => [x]
  | y :: ys => if key x ≤ key y then y :: insDescNat key x ys else x :: y :: ys

/-- Stable descending sort on a `Nat` key. -/
def sortDescNat {α : Type} (key : α → Nat) : List α → List α
  | [] => []
  | x :: xs => insDescNat key x (sortDescNat key xs)

/-- Insertion step of a stable ascending sort on a `Nat` key
(SQL `ORDER BY id`). -/
def insAscNat {α : Type} (key : α → Nat) (x : α) : List α → List α
  | [] => [x]
  | y :: ys => if key y ≤ key x then y :: insAscNat key x ys else x :: y :: ys

/-- Stable ascending sort on a `Nat` key. -/
def sortAscNat {α : Type} (key : α → Nat) : List α → List α
  | [] => []
  | x :: xs => insAscNat key x (sortAscNat key xs)

/-- Insertion step of a stable ascending sort on a `String` key
(SQL `ORDER BY filename`). -/
def insAscStr {α : Type} (key : α → String) (x : α) : List α → List α
  | [] => [x]
  | y :: ys => if key y ≤ key x then y :: insAscStr key x ys else x :: y :: ys

/-- Stable ascending sort on a `String` key. -/
def sortAscStr {α : Type} (key : α → String) : List α → List α
  | [] => []
  | x :: xs => insAscStr key x (sortAscStr key xs)

/-- The `startGame(session)` of the game module; `Math.floor(Math.random()*100)
+ 1` is modelled by mapping the external draw `rand` into `1..100`. -/
def startGame (rand : Nat) (session : Session) : Session × String :=
  let targetNumber := rand % 100 + 1
  ({ session with
     currentGame := some ⟨targetNumber, 0, 7⟩ },
   "Welcome to Number Guess! I" ++ sqm ++
     "m thinking of a number between 1 and 100. You have 7 attempts. Type your guess (e.g., 42).\n")

/-- The `handleGuess(session, guessString)` of the game module. The source's
final `guess > game.targetNumber` branch is the `else` here (by trichotomy its
trailing fallback line is unreachable). -/
def handleGuess (session : Session) (guessString : String) : Session × String :=
  match jsParseInt guessString with
  | none => (session, "That" ++ sqm ++ "s not a valid number. Try again.\n")
  | some guess =>
    match session.currentGame with
    | none =>
      ({ session with currentGame := none },
       "Error: No active Number Guess game found. Starting over.\n")
    | some game0 =>
      let game := { game0 with attempts := game0.attempts + 1 }
      if guess = (game.targetNumber : Int) then
        ({ session with currentGame := none },
         "Correct! You guessed the number " ++ toString game.targetNumber ++
           " in " ++ toString game.attempts ++ " attempt(s).\n")
      else if game.maxAttempts ≤ game.attempts then
        ({ session with currentGame := none },
         "Sorry, you" ++ sqm ++ "ve run out of attempts! The number was " ++
           toString game.targetNumber ++ ".\n")
      else if guess < (game.targetNumber : Int) then
        ({ session with currentGame := some game },
         "Too low. Attempts left: " ++
           toString (game.maxAttempts - game.attempts) ++ "\n")
      else
        ({ session with currentGame := some game },
         "Too high. Attempts left: " ++
           toString (game.maxAttempts - game.attempts) ++ "\n")

/-- The `quitGame(session)` of the game module (the only game the model
carries is `numberGuess`, so the name check is implicit). -/
def quitGame (session : Session) : Session × String :=
  match session.currentGame with
  | some _ => ({ session with currentGame := none }, "Exited Number Guess game.\n")
  | none => (session, "You are not currently in the Number Guess game.\n")

/-- One formatted line of the broadcast-prepend block. -/
def broadcastLine (isTelnet : Bool) (b : BMsg) : String :=
  if isTelnet then
    ANSI_BRIGHT ++ ANSI_MAGENTA ++ "[BROADCAST " ++ fmtTime b.timestamp ++
      "]" ++ "\x1B[0m" ++ " " ++ b.text ++ "\n"
  else
    "[BROADCAST " ++ fmtTime b.timestamp ++ "] " ++ b.text ++ "\n"

/-- The text the prepend block of `processInput` accumulates: the formatted
entries with index above `lastSeen`, in queue order. -/
def broadcastBlockText (isTelnet : Bool) (queue : List BMsg) (lastSeen : Int) :
    String :=
  if 0 < queue.length ∧ lastSeen + 1 < (queue.length : Int) then
    String.join ((queue.drop (lastSeen + 1).toNat).map (broadcastLine isTelnet))
  else ""

/-- The index update of the prepend block: jump to the tail of the queue
exactly when the block fired. -/
def advanceSeen (queue : List BMsg) (lastSeen : Int) : Int :=
  if 0 < queue.length ∧ lastSeen + 1 < (queue.length : Int) then
    (queue.length : Int) - 1
  else lastSeen

/-- The effective logged-in user id behind the guard `!session.loggedIn ||
!session.userId` (a user id of `0` would be falsy in JS, hence the `≠ 0`). -/
def loggedInUser (session : Session) : Option Nat :=
  match session.userId with
  | some uid => if session.loggedIn && uid ≠ 0 then some uid else none
  | none => none

/-- Column assignment used by the SETCOLOR upsert. -/
def setPrefCol (r : PrefRow) (col v : String) : PrefRow :=
  if col = "color_prompt" then { r with color_prompt := some v }
  else if col = "color_username_output" then { r with color_username_output := some v }
  else if col = "color_timestamp_output" then { r with color_timestamp_output := some v }
  else r

/-- The SETCOLOR query `INSERT INTO user_preferences ... ON CONFLICT(user_id)
DO UPDATE SET col = excluded.col`. -/
def upsertPref (db : DB) (uid : Nat) (col v : String) : DB :=
  if db.user_preferences.any (fun r => r.user_id = uid) then
    let rows := db.user_preferences.map
      (fun r => if r.user_id = uid then setPrefCol r col v else r)
    { db with user_preferences := rows }
  else
    { db with user_preferences :=
        db.user_preferences ++ [setPrefCol ⟨uid, none, none, none⟩ col v] }

/-- The preference-merging block of a successful LOGIN: each stored column, if
present and a known color name, overrides the default name. -/
def mergePrefRow (prefs : List (String × String)) (row : PrefRow) :
    List (String × String) :=
  let prefs :=
    match row.color_prompt with
    | some cp => if AVAILABLE_COLORS.contains cp then assocSet prefs "prompt" cp else prefs
    | none => prefs
  let prefs :=
    match row.color_username_output with
    | some cu => if AVAILABLE_COLORS.contains cu then assocSet prefs "username_output" cu else prefs
    | none => prefs
  match row.color_timestamp_output with
  | some ct => if AVAILABLE_COLORS.contains ct then assocSet prefs "timestamp_output" ct else prefs
  | none => prefs

/-- The LOOK join `messages m JOIN users u ON m.user_id = u.id WHERE
m.board_id = ?` (rows whose author is missing drop out of the inner join). -/
def lookJoin (db : DB) (boardId : Nat) : List (MsgRow × String) :=
  (db.messages.filter (fun m => m.board_id = boardId)).filterMap
    (fun m => (db.users.find? (fun u => u.id = m.user_id)).map
      (fun u => (m, u.username)))

/-- The full LOOK query: join, `ORDER BY m.timestamp DESC`, `LIMIT 10`. -/
def lookRows (db : DB) (boardId : Nat) : List (MsgRow × String) :=
  (sortDescNat (fun p => p.1.timestamp) (lookJoin db boardId)).take 10

/-- One rendered LOOK line. -/
def lookLine (isTelnet : Bool) (session : Session) (p : MsgRow × String) :
    String :=
  let localTimestamp := fmtTime p.1.timestamp
  if isTelnet then
    getAppliedColor session "timestamp_output" ++ "[" ++ localTimestamp ++ "]" ++
      "\x1B[0m" ++ " " ++ getAppliedColor session "username_output" ++ p.2 ++
      "\x1B[0m" ++ ": " ++ p.1.body
  else
    "[" ++ localTimestamp ++ "] " ++ p.2 ++ ": " ++ p.1.body

/-- The LISTMAIL join `private_messages pm JOIN users u ON pm.sender_id = u.id
WHERE pm.recipient_id = ?`. -/
def mailJoin (db : DB) (uid : Nat) : List (PMRow × String) :=
  (db.private_messages.filter (fun m => m.recipient_id = uid)).filterMap
    (fun m => (db.users.find? (fun u => u.id = m.sender_id)).map
      (fun u => (m, u.username)))

/-- The READMAIL lookup: the joined row with `pm.id = ? AND pm.recipient_id
= ?`. -/
def readMailFind (db : DB) (uid : Nat) (mid : Int) : Option (PMRow × String) :=
  ((db.private_messages.filterMap
      (fun m => (db.users.find? (fun u => u.id = m.sender_id)).map
        (fun u => (m, u.username)))).find?
    (fun p => (p.1.id : Int) = mid && p.1.recipient_id = uid))

/-- The LISTFILES join `file_listings fl JOIN users u ON fl.uploader_user_id =
u.id WHERE fl.area_id = ?`. -/
def filesJoin (db : DB) (areaId : Nat) : List (FileRow × String) :=
  (db.file_listings.filter (fun f => f.area_id = areaId)).filterMap
    (fun f => (db.users.find? (fun u => u.id = f.uploader_user_id)).map
      (fun u => (f, u.username)))

/-- The KICK loop over `Object.entries(sessions)`: at the first logged-in
entry carrying the target username, either refuse (caller itself) or delete
that entry; the search stops there. -/
def kickLoop (callerSid target : String) :
    List (String × Session) → List (String × Session) × Option String
  | [] => ([], none)
  | (sid, s) :: rest =>
    if s.username = target && s.loggedIn then
      if sid = callerSid then
        ((sid, s) :: rest, some ("You cannot kick yourself.\n"))
      else
        (rest, some ("User " ++ target ++ " has been kicked. Their session is invalidated.\n"))
    else
      let r := kickLoop callerSid target rest
      ((sid, s) :: r.1, r.2)

/-- Context a dispatch case receives: the caller, its session as already
updated by the prepend block, the parse results, the raw line, and the
external inputs. -/
structure Ctx where
  sid : String
  session : Session
  cmd : String
  args : List String
  inputString : String
  isTelnet : Bool
  bText : String
  now : Nat
  rand : Nat

/-- Dispatch case `REGISTER` of `bbsLogic.js`. -/
def cmdREGISTER (st : BBSState) (c : Ctx) : BBSState × DOut :=
  match c.args with
  | [regUsername, regPassword] =>
    match st.db.users.find? (fun u => u.username = regUsername) with
    | some _ => (st, .normal "Username already taken. Please try another.\n")
    | none =>
      let row : UserRow :=
        ⟨st.db.nextUserId, regUsername, bcryptHash regPassword, c.now, "user"⟩
      let db := { st.db with
                  users := st.db.users ++ [row]
                  nextUserId := st.db.nextUserId + 1 }
      ({ st with db := db }, .normal "Registration successful. You can now LOGIN.\n")
  | _ => (st, .normal "Usage: REGISTER <username> <password>\n")

/-- Dispatch case `LOGIN` of `bbsLogic.js`; the success path `return
loginMessage + broadcastsToPrepend` is the `direct` outcome. -/
def cmdLOGIN (st : BBSState) (c : Ctx) : BBSState × DOut :=
  match c.args with
  | [loginUsername, loginPassword] =>
    match st.db.users.find? (fun u => u.username = loginUsername) with
    | some user =>
      if bcryptCompare loginPassword user.password_hash then
        let s1 := { c.session with
                    username := user.username
                    loggedIn := true
                    userId := some user.id
                    userRole := some user.role }
        let s2 := setDefaultBoardForSession st.generalBoardCache s1
        let s3 := { s2 with prefs := defaultPrefs }
        let s4 :=
          match st.db.user_preferences.find? (fun r => r.user_id = user.id) with
          | some row => { s3 with prefs := mergePrefRow s3.prefs row }
          | none => s3
        let loginMessage := "Welcome, " ++ user.username ++
          "! Login successful. Current board: " ++ s4.currentBoardName ++ "\n"
        let unread := (st.db.private_messages.filter
          (fun m => m.recipient_id = user.id && m.is_read = false)).length
        let loginMessage :=
          if 0 < unread then
            loginMessage ++ "You have " ++ toString unread ++
              " unread private message(s). Type LISTMAIL to read.\n"
          else loginMessage
        ({ st with sessions := assocSet st.sessions c.sid s4 },
         .direct (loginMessage ++ c.bText))
      else (st, .normal "Invalid username or password.\n")
    | none => (st, .normal "Invalid username or password.\n")
  | _ => (st, .normal "Usage: LOGIN <username> <password>\n")

/-- Dispatch case `LOGOUT` of `bbsLogic.js`. -/
def cmdLOGOUT (st : BBSState) (c : Ctx) : BBSState × DOut :=
  let s1 := { c.session with
              username := "guest"
              loggedIn := false
              userId := none
              userRole := none
              currentGame := none
              prefs := defaultPrefs }
  let s2 := setDefaultBoardForSession st.generalBoardCache s1
  ({ st with sessions := assocSet st.sessions c.sid s2 },
   .normal "You have been logged out.\n")

/-- Dispatch case `LOOK` of `bbsLogic.js`. -/
def cmdLOOK (st : BBSState) (c : Ctx) : BBSState × DOut :=
  let lookBoardId := if c.session.currentBoardId = 0 then 1
                     else c.session.currentBoardId
  let lookBoardName := if c.session.currentBoardName = "" then "General"
                       else c.session.currentBoardName
  let rows := lookRows st.db lookBoardId
  let lines :=
    ("Messages in [" ++ lookBoardName ++ "]:") ::
      (if rows.isEmpty then ["No messages yet on this board."]
       else rows.map (lookLine c.isTelnet c.session))
  (st, .normal (jsJoin "\n" lines ++ "\n"))

/-- Dispatch case `SAY` of `bbsLogic.js`. -/
def cmdSAY (st : BBSState) (c : Ctx) : BBSState × DOut :=
  match loggedInUser c.session with
  | none =>
    (st, .normal "You must be logged in to use the SAY command.\nUsage: LOGIN <username> <password>\n")
  | some uid =>
    let messageBody := jsTrim (jsJoin " " c.args)
    if messageBody = "" then
      (st, .normal "Usage: SAY <message>\nMessage cannot be empty.\n")
    else
      let sayBoardId := if c.session.currentBoardId = 0 then 1
                        else c.session.currentBoardId
      let row : MsgRow := ⟨st.db.nextMessageId, sayBoardId, uid, messageBody, c.now⟩
      let db := { st.db with
                  messages := st.db.messages ++ [row]
                  nextMessageId := st.db.nextMessageId + 1 }
      ({ st with db := db }, .normal "Message posted.\n")

/-- Dispatch case `WHO` of `bbsLogic.js`. -/
def cmdWHO (st : BBSState) (c : Ctx) : BBSState × DOut :=
  let loggedInUsernames :=
    ((st.sessions.map (·.2)).filter (·.loggedIn)).map (·.username)
  let lines :=
    if loggedInUsernames.isEmpty then ["No users currently logged in."]
    else
      "Active users:" ::
        loggedInUsernames.map (fun username =>
          if c.isTelnet then
            "  " ++ getAppliedColor c.session "username_output" ++ username ++
              "\x1B[0m"
          else "  " ++ username)
  (st, .normal (jsJoin "\n" lines ++ "\n"))

/-- Dispatch case `LISTBOARDS` of `bbsLogic.js`. -/
def cmdLISTBOARDS (st : BBSState) (c : Ctx) : BBSState × DOut :=
  let boards := sortAscNat (·.id) st.db.boards
  let lines :=
    if boards.isEmpty then ["No message boards available."]
    else
      "Available Message Boards:" ::
        boards.map (fun b =>
          let desc := if b.description = "" then "No description" else b.description
          if c.isTelnet then
            ANSI_CYAN ++ toString b.id ++ "." ++ "\x1B[0m" ++ " " ++
              ANSI_BRIGHT ++ ANSI_YELLOW ++ b.name ++ "\x1B[0m" ++ " - " ++ desc
          else toString b.id ++ ". " ++ b.name ++ " - " ++ desc)
  (st, .normal (jsJoin "\n" lines ++ "\n"))

/-- Dispatch case `JOINBOARD` of `bbsLogic.js`. -/
def cmdJOINBOARD (st : BBSState) (c : Ctx) : BBSState × DOut :=
  match c.args with
  | [boardIdentifier] =>
    let found : Option BoardRow :=
      match jsParseInt boardIdentifier with
      | none => st.db.boards.find? (fun b => b.name = boardIdentifier)
      | some n => st.db.boards.find? (fun b => (b.id : Int) = n)
    match found with
    | some board =>
      let s := { c.session with
                 currentBoardId := board.id
                 currentBoardName := board.name }
      ({ st with sessions := assocSet st.sessions c.sid s },
       .normal ("Joined board: " ++ board.name ++ ".\n"))
    | none => (st, .normal "Board not found.\n")
  | _ => (st, .normal "Usage: JOINBOARD <board_name_or_id>\n")

/-- Dispatch case `SENDMAIL` of `bbsLogic.js` (two-stage re-parse of the raw
line around the `///` separator). -/
def cmdSENDMAIL (st : BBSState) (c : Ctx) : BBSState × DOut :=
  match loggedInUser c.session with
  | none => (st, .normal "You must be logged in to send mail.\n")
  | some uid =>
    let mailArgsString := jsTrim (jsSubstringFrom c.inputString (c.cmd.length + 1))
    match jsIndexOf mailArgsString " " with
    | none =>
      (st, .normal "Usage: SENDMAIL <recipient_username> <subject> /// [message_body]\n")
    | some firstSpaceIndex =>
      let recipientUsername := jsSubstring mailArgsString 0 firstSpaceIndex
      let subjectAndBodyString :=
        jsTrim (jsSubstringFrom mailArgsString (firstSpaceIndex + 1))
      let parsed :=
        match jsIndexOf subjectAndBodyString "///" with
        | none => (jsTrim subjectAndBodyString, "")
        | some sepIdx =>
          (jsTrim (jsSubstring subjectAndBodyString 0 sepIdx),
           jsTrim (jsSubstringFrom subjectAndBodyString (sepIdx + 3)))
      let mailSubject := parsed.1
      let mailBody := parsed.2
      if recipientUsername = "" || mailSubject = "" then
        (st, .normal "Usage: SENDMAIL <recipient_username> <subject> /// [message_body]\nRecipient and subject are required.\n")
      else
        match st.db.users.find? (fun u => u.username = recipientUsername) with
        | none =>
          (st, .normal ("Recipient user " ++ sqm ++ recipientUsername ++ sqm ++ " not found.\n"))
        | some recipient =>
          let row : PMRow :=
            ⟨st.db.nextPMId, uid, recipient.id, mailSubject, mailBody, c.now, false⟩
          let db := { st.db with
                      private_messages := st.db.private_messages ++ [row]
                      nextPMId := st.db.nextPMId + 1 }
          ({ st with db := db }, .normal "Message sent successfully.\n")

/-- Dispatch case `LISTMAIL` of `bbsLogic.js`. -/
def cmdLISTMAIL (st : BBSState) (c : Ctx) : BBSState × DOut :=
  match loggedInUser c.session with
  | none => (st, .normal "You must be logged in to list your mail.\n")
  | some uid =>
    let mails := sortDescNat (fun p => p.1.timestamp) (mailJoin st.db uid)
    let lines :=
      "Your Private Messages:" ::
        (if mails.isEmpty then ["You have no private messages."]
         else
           mails.map (fun p =>
             let m := p.1
             let unreadMarker :=
               if m.is_read then "  "
               else if c.isTelnet then ANSI_BRIGHT ++ ANSI_GREEN ++ "* " ++ "\x1B[0m"
               else "* "
             let ts := fmtDateTime m.timestamp
             if c.isTelnet then
               unreadMarker ++ ANSI_CYAN ++ toString m.id ++ ":" ++ "\x1B[0m" ++
                 " From: " ++ ANSI_YELLOW ++ p.2 ++ "\x1B[0m" ++ " Sub: " ++
                 m.subject ++ " (" ++ ts ++ ")"
             else
               unreadMarker ++ toString m.id ++ ": From: " ++ p.2 ++ " Sub: " ++
                 m.subject ++ " (" ++ ts ++ ")"))
    (st, .normal (jsJoin "\n" lines ++ "\n"))

/-- The READMAIL update `UPDATE private_messages SET is_read = 1 WHERE id =
?` (the query constrains the id alone). -/
def markRead (db : DB) (mid : Int) : DB :=
  let rows := db.private_messages.map
    (fun r => if (r.id : Int) = mid then { r with is_read := true } else r)
  { db with private_messages := rows }

/-- Dispatch case `READMAIL` of `bbsLogic.js`: look the message up as the
caller's, flip `is_read` once, render the message. -/
def cmdREADMAIL (st : BBSState) (c : Ctx) : BBSState × DOut :=
  match loggedInUser c.session with
  | none => (st, .normal "You must be logged in to read mail.\n")
  | some uid =>
    match c.args with
    | [arg] =>
      match jsParseInt arg with
      | none =>
        (st, .normal "Invalid message ID. Please provide a number.\nUsage: READMAIL <message_id>\n")
      | some mid =>
        match readMailFind st.db uid mid with
        | none => (st, .normal "Message not found or access denied.\n")
        | some p =>
          let m := p.1
          let db := if m.is_read then st.db else markRead st.db mid
          let resp := "From: " ++ p.2 ++ "\nSubject: " ++ m.subject ++
            "\nDate: " ++ fmtDateTime m.timestamp ++ "\n\n" ++ m.body ++ "\n"
          ({ st with db := db }, .normal resp)
    | _ => (st, .normal "Usage: READMAIL <message_id>\n")

/-- Dispatch case `DELETEMAIL` of `bbsLogic.js`. -/
def cmdDELETEMAIL (st : BBSState) (c : Ctx) : BBSState × DOut :=
  match loggedInUser c.session with
  | none => (st, .normal "You must be logged in to delete mail.\n")
  | some uid =>
    match c.args with
    | [arg] =>
      match jsParseInt arg with
      | none =>
        (st, .normal "Invalid message ID. Please provide a number.\nUsage: DELETEMAIL <message_id>\n")
      | some mid =>
        let changes := (st.db.private_messages.filter
          (fun r => (r.id : Int) = mid && r.recipient_id = uid)).length
        let rows := st.db.private_messages.filter
          (fun r => !((r.id : Int) = mid && r.recipient_id = uid))
        let db := { st.db with private_messages := rows }
        if 0 < changes then ({ st with db := db }, .normal "Message deleted.\n")
        else ({ st with db := db }, .normal "Message not found or access denied.\n")
    | _ => (st, .normal "Usage: DELETEMAIL <message_id>\n")

/-- Dispatch case `KICK` of `bbsLogic.js`. -/
def cmdKICK (st : BBSState) (c : Ctx) : BBSState × DOut :=
  if !isSysOp c.session then (st, .normal "Access denied.\n")
  else
    match c.args with
    | [arg] =>
      let userToKick := jsTrim arg
      if userToKick = "" then
        (st, .normal "Username cannot be empty.\nUsage: KICK <username>\n")
      else
        let r := kickLoop c.sid userToKick st.sessions
        match r.2 with
        | some resp => ({ st with sessions := r.1 }, .normal resp)
        | none =>
          (st, .normal ("User " ++ userToKick ++ " not found or not currently logged in.\n"))
    | _ => (st, .normal "Usage: KICK <username>\n")

/-- Dispatch case `BROADCAST` of `bbsLogic.js`: append to the global queue. -/
def cmdBROADCAST (st : BBSState) (c : Ctx) : BBSState × DOut :=
  if !isSysOp c.session then (st, .normal "Access denied.\n")
  else
    let broadcastMessageText := jsTrim (jsJoin " " c.args)
    if broadcastMessageText = "" then
      (st, .normal "Usage: BROADCAST <message>\nMessage cannot be empty.\n")
    else
      ({ st with broadcasts := st.broadcasts ++ [⟨broadcastMessageText, c.now⟩] },
       .normal "Broadcast message sent.\n")

/-- Dispatch case `EDITMESSAGE` of `bbsLogic.js`. -/
def cmdEDITMESSAGE (st : BBSState) (c : Ctx) : BBSState × DOut :=
  if !isSysOp c.session then (st, .normal "Access denied.\n")
  else
    match c.args with
    | a0 :: rest =>
      if rest.isEmpty then (st, .normal "Usage: EDITMESSAGE <message_id> <new_text>\n")
      else
        let newText := jsTrim (jsJoin " " rest)
        match jsParseInt a0 with
        | none =>
          (st, .normal "Invalid message ID. Please provide a number.\nUsage: EDITMESSAGE <message_id> <new_text>\n")
        | some editMessageId =>
          if newText = "" then
            (st, .normal "New message text cannot be empty.\nUsage: EDITMESSAGE <message_id> <new_text>\n")
          else
            let changes := (st.db.messages.filter
              (fun m => (m.id : Int) = editMessageId)).length
            let rows := st.db.messages.map
              (fun m => if (m.id : Int) = editMessageId then { m with body := newText } else m)
            let st := { st with db := { st.db with messages := rows } }
            if 0 < changes then (st, .normal "Message updated.\n")
            else (st, .normal "Message not found.\n")
    | [] => (st, .normal "Usage: EDITMESSAGE <message_id> <new_text>\n")

/-- Dispatch case `DELETEMESSAGE` of `bbsLogic.js`. -/
def cmdDELETEMESSAGE (st : BBSState) (c : Ctx) : BBSState × DOut :=
  if !isSysOp c.session then (st, .normal "Access denied.\n")
  else
    match c.args with
    | [arg] =>
      match jsParseInt arg with
      | none =>
        (st, .normal "Invalid message ID. Please provide a number.\nUsage: DELETEMESSAGE <message_id>\n")
      | some mid =>
        let changes := (st.db.messages.filter (fun m => (m.id : Int) = mid)).length
        let rows := st.db.messages.filter (fun m => !((m.id : Int) = mid))
        let st := { st with db := { st.db with messages := rows } }
        if 0 < changes then (st, .normal "Message deleted from board.\n")
        else (st, .normal "Message not found on board.\n")
    | _ => (st, .normal "Usage: DELETEMESSAGE <message_id>\n")

/-- Dispatch case `LISTFILEAREAS` of `bbsLogic.js`. -/
def cmdLISTFILEAREAS (st : BBSState) (c : Ctx) : BBSState × DOut :=
  let areas := sortAscNat (·.id) st.db.file_areas
  let lines :=
    "Available File Areas:" ::
      (if areas.isEmpty then ["No file areas available."]
       else
         areas.map (fun a =>
           let desc := if a.description = "" then "No description" else a.description
           if c.isTelnet then
             ANSI_CYAN ++ toString a.id ++ "." ++ "\x1B[0m" ++ " " ++
               ANSI_BRIGHT ++ ANSI_YELLOW ++ a.name ++ "\x1B[0m" ++ " - " ++ desc
           else toString a.id ++ ". " ++ a.name ++ " - " ++ desc))
  (st, .normal (jsJoin "\n" lines ++ "\n"))

/-- Dispatch case `UPLOADINFO` of `bbsLogic.js`. The UNIQUE violation on
`(area_id, filename)` rejects with the message `Filename '<name>' already
exists in this area.`, and the catch block shows it verbatim only when it
starts with the (different) text `Filename already exists`. -/
def cmdUPLOADINFO (st : BBSState) (c : Ctx) : BBSState × DOut :=
  if !isSysOp c.session then (st, .normal "Access denied.\n")
  else
    let uploadInfoFullArgs := jsTrim (jsSubstringFrom c.inputString (c.cmd.length + 1))
    let uploadInfoParts := splitCh ' ' uploadInfoFullArgs
    match uploadInfoParts with
    | areaRef :: part1 :: _ =>
      let filename := jsTrim part1
      let uploadBaseCommandString := c.cmd ++ " " ++ areaRef ++ " " ++ filename
      let uploadRestOfStringForDesc :=
        if jsStartsWith (jsToUpper c.inputString) (jsToUpper uploadBaseCommandString) then
          jsTrim (jsSubstringFrom c.inputString uploadBaseCommandString.length)
        else ""
      let uploadDescription :=
        match jsIndexOf uploadRestOfStringForDesc "///" with
        | some i => jsTrim (jsSubstringFrom uploadRestOfStringForDesc (i + 3))
        | none => ""
      if filename = "" then
        (st, .normal "Filename cannot be empty.\nUsage: UPLOADINFO <area_name_or_id> <filename> /// [description]\n")
      else
        let area : Option AreaRow :=
          match jsParseInt areaRef with
          | none => st.db.file_areas.find? (fun a => a.name = areaRef)
          | some n => st.db.file_areas.find? (fun a => (a.id : Int) = n)
        match area with
        | none => (st, .normal "File area not found.\n")
        | some area =>
          if st.db.file_listings.any
              (fun f => f.area_id = area.id && f.filename = filename) then
            let errMsg := "Filename " ++ sqm ++ filename ++ sqm ++
              " already exists in this area."
            let resp :=
              if jsStartsWith errMsg "Filename already exists" then errMsg
              else "Error uploading file information. A database error occurred.\n"
            (st, .normal resp)
          else
            let row : FileRow :=
              ⟨st.db.nextFileId, area.id, filename, uploadDescription,
               c.session.userId.getD 0, c.now, 0⟩
            let db := { st.db with
                        file_listings := st.db.file_listings ++ [row]
                        nextFileId := st.db.nextFileId + 1 }
            ({ st with db := db },
             .normal "File information uploaded successfully.\n")
    | _ =>
      (st, .normal "Usage: UPLOADINFO <area_name_or_id> <filename> /// [description]\n")

/-- Dispatch case `LISTFILES` of `bbsLogic.js`. -/
def cmdLISTFILES (st : BBSState) (c : Ctx) : BBSState × DOut :=
  let resolved : Option (Nat × String) ⊕ String :=
    match c.args with
    | [] =>
      match st.db.file_areas.find? (fun a => a.name = "General Files") with
      | some a => .inl (some (a.id, a.name))
      | none =>
        .inr ("Default " ++ sqm ++ "General Files" ++ sqm ++
          " area not found. Please specify an area or contact SysOp.\n")
    | [areaFileRef] =>
      let found : Option AreaRow :=
        match jsParseInt areaFileRef with
        | none => st.db.file_areas.find? (fun a => a.name = areaFileRef)
        | some n => st.db.file_areas.find? (fun a => (a.id : Int) = n)
      match found with
      | some a => .inl (some (a.id, a.name))
      | none => .inr "File area not found.\n"
    | _ => .inr "Usage: LISTFILES [area_name_or_id]\n(Too many arguments provided)\n"
  match resolved with
  | .inr resp => (st, .normal resp)
  | .inl none => (st, .normal "Could not determine file area to list. Please try again or specify an area.\n")
  | .inl (some (areaId, areaName)) =>
    let files := sortAscStr (fun p => p.1.filename) (filesJoin st.db areaId)
    let lines :=
      ("Files in [" ++ areaName ++ "]:") ::
        (if files.isEmpty then ["No files in this area."]
         else
           files.map (fun p =>
             let f := p.1
             let desc := if f.description = "" then "No description" else f.description
             let d := fmtDate f.upload_date
             if c.isTelnet then
               ANSI_CYAN ++ toString f.id ++ "." ++ "\x1B[0m" ++ " " ++
                 ANSI_BRIGHT ++ ANSI_YELLOW ++ f.filename ++ "\x1B[0m" ++ " - " ++
                 desc ++ " (Up: " ++ ANSI_GREEN ++ p.2 ++ "\x1B[0m" ++ " on " ++
                 d ++ ", DLs: " ++ toString f.download_count ++ ")"
             else
               toString f.id ++ ". " ++ f.filename ++ " - " ++ desc ++
                 " (Uploaded by: " ++ p.2 ++ " on " ++ d ++ ", Downloads: " ++
                 toString f.download_count ++ ")"))
    (st, .normal (jsJoin "\n" lines ++ "\n"))

/-- Dispatch case `FILEDESC` of `bbsLogic.js`. -/
def cmdFILEDESC (st : BBSState) (c : Ctx) : BBSState × DOut :=
  match loggedInUser c.session with
  | none => (st, .normal "You must be logged in to change a file description.\n")
  | some uid =>
    match c.args.head? with
    | none =>
      (st, .normal "Usage: FILEDESC <file_id> /// <description>\nFile ID is required.\n")
    | some fileIdArg =>
      match jsParseInt fileIdArg with
      | none =>
        (st, .normal "Invalid File ID. Must be a number.\nUsage: FILEDESC <file_id> /// <description>\n")
      | some fileIdToDesc =>
        let part := c.cmd ++ " " ++ fileIdArg
        let rest := jsTrim (jsSubstringFrom c.inputString part.length)
        match jsIndexOf rest "///" with
        | none =>
          (st, .normal ("Separator " ++ sqm ++ "///" ++ sqm ++
            " missing.\nUsage: FILEDESC <file_id> /// <description>\n"))
        | some i =>
          let newFileDesc := jsTrim (jsSubstringFrom rest (i + 3))
          if newFileDesc = "" then
            (st, .normal ("Description cannot be empty when using " ++ sqm ++
              "///" ++ sqm ++ ".\nUsage: FILEDESC <file_id> /// <description>\n"))
          else
            match st.db.file_listings.find? (fun f => (f.id : Int) = fileIdToDesc) with
            | none => (st, .normal "File not found.\n")
            | some fileListing =>
              if uid ≠ fileListing.uploader_user_id && !isSysOp c.session then
                (st, .normal "Access denied. You can only edit descriptions for files you uploaded.\n")
              else
                let rows := st.db.file_listings.map
                  (fun f => if (f.id : Int) = fileIdToDesc then { f with description := newFileDesc } else f)
                ({ st with db := { st.db with file_listings := rows } },
                 .normal "File description updated.\n")

/-- Dispatch case `DOWNLOADINFO` of `bbsLogic.js` (guarded by `loggedIn`
alone, unlike the other mail/file commands). -/
def cmdDOWNLOADINFO (st : BBSState) (c : Ctx) : BBSState × DOut :=
  if !c.session.loggedIn then
    (st, .normal "You must be logged in to download file information.\n")
  else
    match c.args with
    | [arg] =>
      match jsParseInt arg with
      | none =>
        (st, .normal "Invalid file ID. Please provide a number.\nUsage: DOWNLOADINFO <file_id>\n")
      | some fid =>
        match st.db.file_listings.find? (fun f => (f.id : Int) = fid) with
        | none => (st, .normal "File not found.\n")
        | some fileToDownload =>
          let changes := (st.db.file_listings.filter
            (fun f => (f.id : Int) = fid)).length
          let rows := st.db.file_listings.map
            (fun f => if (f.id : Int) = fid then { f with download_count := f.download_count + 1 } else f)
          let st := { st with db := { st.db with file_listings := rows } }
          if 0 < changes then
            (st, .normal ("Simulated download of [" ++ fileToDownload.filename ++
              "]. Download count updated.\n"))
          else (st, .normal "File not found (or error updating count).\n")
    | _ => (st, .normal "Usage: DOWNLOADINFO <file_id>\n")

/-- Dispatch case `GAME` of `bbsLogic.js`. -/
def cmdGAME (st : BBSState) (c : Ctx) : BBSState × DOut :=
  match (c.args.head?).map (fun a => jsTrim (jsToUpper a)) with
  | none =>
    (st, .normal "Usage: GAME <action|game_name> [START|action_argument] or GAME LIST/QUIT/EXIT.\n")
  | some gameAction =>
    let gameNameArg := (c.args.get? 1).map (fun a => jsTrim (jsToUpper a))
    if gameAction = "LIST" then (st, .normal "Available games:\n- NUMBERGUESS\n")
    else if gameAction = "QUIT" || gameAction = "EXIT" then
      match c.session.currentGame with
      | some _ =>
        let r := quitGame c.session
        ({ st with sessions := assocSet st.sessions c.sid r.1 }, .normal r.2)
      | none => (st, .normal "You are not currently in a game.\n")
    else
      let startTarget : Option String :=
        if gameAction = "START" && gameNameArg.isSome then gameNameArg
        else if gameNameArg = some "START" then some gameAction
        else if gameAction = "NUMBERGUESS" && gameNameArg.isNone then
          some "NUMBERGUESS"
        else none
      match startTarget with
      | some targetGameName =>
        match c.session.currentGame with
        | some _ =>
          (st, .normal "You are already in a game (numberGuess). Type QUIT or EXIT to leave it first.\n")
        | none =>
          if targetGameName = "NUMBERGUESS" then
            let r := startGame c.rand c.session
            ({ st with sessions := assocSet st.sessions c.sid r.1 }, .normal r.2)
          else
            (st, .normal "Unknown game to start. Available: NUMBERGUESS. Usage: GAME NUMBERGUESS START\n")
      | none =>
        (st, .normal "Invalid game command. Usage: GAME LIST, GAME <game_name> START, GAME QUIT.\n")

/-- The general help lines of the `HELP` case of `bbsLogic.js`. -/
def helpGeneralLines : List String :=
  ["Available commands:",
   "LOOK - View recent messages (on current board)",
   "SAY <message> - Post a message (on current board, login required)",
   "LISTBOARDS - List all available message boards",
   "JOINBOARD <board_name_or_id> - Join a specific message board",
   "SENDMAIL <recipient> <subject> /// [body] - Send a private message.",
   "LISTMAIL - List your private messages.",
   "READMAIL <message_id> - Read a specific private message.",
   "DELETEMAIL <message_id> - Delete a specific private message.",
   "LISTFILEAREAS - List all available file areas.",
   "LISTFILES [area_name_or_id] - List files in an area (defaults to " ++ sqm ++
     "General Files" ++ sqm ++ ").",
   "FILEDESC <file_id> /// <description> - Add/change a file" ++ sqm ++
     "s description.",
   "DOWNLOADINFO <file_id> - Simulate downloading a file & update count.",
   "GAME LIST - List available games.",
   "GAME <game_name> START - Start playing a game (e.g., GAME NUMBERGUESS START).",
   "GAME QUIT - Exit the current game.",
   "SETCOLOR <element> <color> - Customize Telnet colors. Type HELP SETCOLOR for details.",
   "REGISTER <username> <password> - Create a new account",
   "LOGIN <username> <password> - Log into your account",
   "LOGOUT - Log out",
   "WHO - List active users",
   "HELP - Show this help message",
   "HELP SETCOLOR - Detailed help for color customization.",
   "QUIT - Disconnect (Telnet only)",
   "\nWhile in a game, most other commands are unavailable. Type " ++ sqm ++
     "quit" ++ sqm ++ " or " ++ sqm ++ "exit" ++ sqm ++ " to leave the game."]

/-- The sysop-only help lines. -/
def helpSysOpLines : List String :=
  ["\nSysOp Commands:",
   "KICK <username> - Disconnect a user.",
   "BROADCAST <message> - Send a message to all users.",
   "EDITMESSAGE <id> <new_text> - Edit a public board message.",
   "DELETEMESSAGE <id> - Delete a public board message.",
   "UPLOADINFO <area> <filename> /// [desc] - Add file info (SysOp)."]

/-- The `HELP SETCOLOR` response lines. -/
def helpSetcolorLines : List String :=
  ["Usage: SETCOLOR <element> <color>",
   "\nCustomizable elements:"] ++
  CUSTOMIZABLE_ELEMENTS.map (fun p => "  " ++ p.1 ++ " - " ++ p.2) ++
  ["\nAvailable colors:",
   "  " ++ jsJoin ", " AVAILABLE_COLORS]

/-- Dispatch case `HELP` of `bbsLogic.js` (the `HELP SETCOLOR` branch answers
with the dedicated text; otherwise sysops get the extra block). -/
def cmdHELP (st : BBSState) (c : Ctx) : BBSState × DOut :=
  match c.args.head? with
  | some a0 =>
    if jsToUpper a0 = "SETCOLOR" then
      (st, .normal (jsJoin "\n" helpSetcolorLines ++ "\n"))
    else
      let lines := if isSysOp c.session then helpGeneralLines ++ helpSysOpLines
                   else helpGeneralLines
      (st, .normal (jsJoin "\n" lines ++ "\n"))
  | none =>
    let lines := if isSysOp c.session then helpGeneralLines ++ helpSysOpLines
                 else helpGeneralLines
    (st, .normal (jsJoin "\n" lines ++ "\n"))

/-- Dispatch case `SETCOLOR`, embedded from the revision in
`src/unnamed/part_001` lines 477-524 (the case is absent from the latest
`bbsLogic.js` switch). For the element `prompt` the written preference key is
`color_prompt`, exactly as the source computes it. -/
def cmdSETCOLOR (st : BBSState) (c : Ctx) : BBSState × DOut :=
  match loggedInUser c.session with
  | none => (st, .normal "You must be logged in to set colors.\n")
  | some uid =>
    let elementTypeArg := (c.args.head?).map jsToLower
    let colorNameArg := (c.args.get? 1).map jsToLower
    match elementTypeArg with
    | none => (st, .normal "Invalid element type. Use HELP SETCOLOR for available elements.\n")
    | some el =>
      if (assocGet CUSTOMIZABLE_ELEMENTS el).isNone then
        (st, .normal "Invalid element type. Use HELP SETCOLOR for available elements.\n")
      else
        match colorNameArg with
        | none => (st, .normal "Invalid color name. Use HELP SETCOLOR for available colors.\n")
        | some colorName =>
          if !AVAILABLE_COLORS.contains colorName then
            (st, .normal "Invalid color name. Use HELP SETCOLOR for available colors.\n")
          else
            let keys :=
              if el = "username" then ("username_output", "color_username_output")
              else if el = "timestamp" then ("timestamp_output", "color_timestamp_output")
              else ("color_" ++ el, "color_" ++ el)
            let db := upsertPref st.db uid keys.2 colorName
            let s := { c.session with prefs := assocSet c.session.prefs keys.1 colorName }
            ({ st with db := db, sessions := assocSet st.sessions c.sid s },
             .normal ("Color for " ++ el ++ " set to " ++ colorName ++ ".\n"))

/-- The `switch (cmd)` of `processInput` in `bbsLogic.js`, with the SETCOLOR
case of the `src/unnamed/part_001` revision; the empty command answers with
the empty string, anything else is unknown. -/
def dispatch (st : BBSState) (c : Ctx) : BBSState × DOut :=
  if c.cmd = "REGISTER" then cmdREGISTER st c
  else if c.cmd = "LOGIN" then cmdLOGIN st c
  else if c.cmd = "LOGOUT" then cmdLOGOUT st c
  else if c.cmd = "LOOK" then cmdLOOK st c
  else if c.cmd = "SAY" then cmdSAY st c
  else if c.cmd = "WHO" then cmdWHO st c
  else if c.cmd = "LISTBOARDS" then cmdLISTBOARDS st c
  else if c.cmd = "JOINBOARD" then cmdJOINBOARD st c
  else if c.cmd = "SENDMAIL" then cmdSENDMAIL st c
  else if c.cmd = "LISTMAIL" then cmdLISTMAIL st c
  else if c.cmd = "READMAIL" then cmdREADMAIL st c
  else if c.cmd = "DELETEMAIL" then cmdDELETEMAIL st c
  else if c.cmd = "KICK" then cmdKICK st c
  else if c.cmd = "BROADCAST" then cmdBROADCAST st c
  else if c.cmd = "EDITMESSAGE" then cmdEDITMESSAGE st c
  else if c.cmd = "DELETEMESSAGE" then cmdDELETEMESSAGE st c
  else if c.cmd = "LISTFILEAREAS" then cmdLISTFILEAREAS st c
  else if c.cmd = "UPLOADINFO" then cmdUPLOADINFO st c
  else if c.cmd = "LISTFILES" then cmdLISTFILES st c
  else if c.cmd = "FILEDESC" then cmdFILEDESC st c
  else if c.cmd = "DOWNLOADINFO" then cmdDOWNLOADINFO st c
  else if c.cmd = "GAME" then cmdGAME st c
  else if c.cmd = "HELP" then cmdHELP st c
  else if c.cmd = "SETCOLOR" then cmdSETCOLOR st c
  else if c.cmd = "" then (st, .normal "")
  else (st, .normal ("Unknown command: " ++ c.cmd ++ "\n"))

/-- The session as the prepend block leaves it: the broadcast-seen index
advanced to the tail of the queue when the block fired. -/
def advSession (q : List BMsg) (s : Session) : Session :=
  { s with lastSeenBroadcastIndex := advanceSeen q s.lastSeenBroadcastIndex }

/-- The state after the prepend block stored the advanced session. -/
def procSt1 (st : BBSState) (sid : String) (s : Session) : BBSState :=
  { st with sessions := assocSet st.sessions sid (advSession st.broadcasts s) }

/-- The context a dispatch case receives for this call. -/
def procCtx (st : BBSState) (sid : String) (s : Session) (input : String)
    (now rand : Nat) : Ctx :=
  ⟨sid, advSession st.broadcasts s,
   (parseCommand input).1, (parseCommand input).2, input,
   s.connectionType = "telnet",
   broadcastBlockText (s.connectionType = "telnet") st.broadcasts
     s.lastSeenBroadcastIndex,
   now, rand⟩

/-- The no-active-game path of `processInput`: parse, run the
broadcast-prepend block (recording the advanced index in the session), run the
dispatch, and assemble the response — a `direct` outcome is returned as is,
and a `normal` one gets the pending broadcasts prepended unless the dead-code
final guard (the source checks `cmd === 'LOGIN'` and that the response starts
with `Welcome,`) fires. -/
def processCommand (st : BBSState) (sid : String) (session : Session)
    (inputString : String) (now rand : Nat) : BBSState × String :=
  let c := procCtx st sid session inputString now rand
  let r := dispatch (procSt1 st sid session) c
  match r.2 with
  | .direct resp => (r.1, resp)
  | .normal resp =>
    if c.cmd = "LOGIN" && jsStartsWith resp "Welcome," then (r.1, resp)
    else (r.1, c.bText ++ resp)

/-- `processInput(sessionId, inputString)`: unknown session, game routing
(with the quit/exit interception), or normal command processing. -/
def processInput (st : BBSState) (sid inputString : String) (now rand : Nat) :
    BBSState × String :=
  match assocGet st.sessions sid with
  | none => (st, "Your session is invalid or has expired. Please log in again.\n")
  | some session =>
    match session.currentGame with
    | some _ =>
      let lowerInput := jsTrim (jsToLower inputString)
      if lowerInput = "quit" || lowerInput = "exit" then
        let r := quitGame session
        ({ st with sessions := assocSet st.sessions sid r.1 }, r.2)
      else
        let r := handleGuess session inputString
        ({ st with sessions := assocSet st.sessions sid r.1 }, r.2)
    | none => processCommand st sid session inputString now rand

/-- `createSession(connectionType)`: the fresh random id is an explicit
input; the record starts as guest on the default board with default
preference names and the broadcast-seen index at the current queue tail. -/
def createSession (st : BBSState) (connectionType sid : String) : BBSState :=
  let session : Session :=
    { username := "guest"
      loggedIn := false
      connectionType := connectionType
      userId := none
      userRole := none
      currentBoardId := 0
      currentBoardName := ""
      lastSeenBroadcastIndex :=
        if 0 < st.broadcasts.length then (st.broadcasts.length : Int) - 1 else -1
      currentGame := none
      prefs := defaultPrefs }
  let session := setDefaultBoardForSession st.generalBoardCache session
  { st with sessions := assocSet st.sessions sid session }

/-- `endSession(sessionId)`: drop the record (the game cleanup it performs
first only touches the record being dropped). -/
def endSession (st : BBSState) (sid : String) : BBSState × Bool :=
  match assocGet st.sessions sid with
  | some _ => ({ st with sessions := assocRemove st.sessions sid }, true)
  | none => (st, false)

/-- One externally-triggered operation on the process state. -/
inductive BBSOp where
  | create (connectionType sid : String)
  | line (sid input : String) (now rand : Nat)
  | drop (sid : String)
deriving Repr

/-- Apply one operation. -/
def applyOp (st : BBSState) : BBSOp → BBSState
  | .create ct sid => createSession st ct sid
  | .line sid input now rand => (processInput st sid input now rand).1
  | .drop sid => (endSession st sid).1

/-- Run a sequence of operations. -/
def runOps (st : BBSState) (ops : List BBSOp) : BBSState := ops.foldl applyOp st

/-- Invariant C5 speaks about: session keys are distinct (the random ids), and
every session's broadcast-seen index lies in `[-1, queue length)`. -/
def SessionsWF (st : BBSState) : Prop :=
  (st.sessions.map Prod.fst).Nodup ∧
  ∀ p ∈ st.sessions,
    -1 ≤ p.2.lastSeenBroadcastIndex ∧
    p.2.lastSeenBroadcastIndex < (st.broadcasts.length : Int)

/-- The body text C9 describes, built the way the spec words it: the
whitespace-split tokens of the line, the first `k` (command and, for
EDITMESSAGE, the id) dropped, re-joined with single spaces and trimmed. -/
def specCollapsedTail (input : String) (k : Nat) : String :=
  jsTrim (jsJoin " " ((splitWs (jsTrim input)).drop k))

/-- Feed a list of guesses to `processInput`, keeping the last response. -/
def runGuesses (sid : String) (now rand : Nat) :
    BBSState → List String → BBSState × String
  | st, [] => (st, "")
  | st, g :: gs =>
    let r := processInput st sid g now rand
    if gs.isEmpty then r else runGuesses sid now rand r.1 gs

/-- Test store: two accounts (a user and a sysop), two boards, one unread
private message for the user, one file area with one listing. -/
def exDB : DB :=
  { users := [⟨1, "alice", bcryptHash "pw", 0, "user"⟩,
              ⟨2, "sys", bcryptHash "pw", 0, "sysop"⟩]
    boards := [⟨1, "General", "General discussion"⟩, ⟨2, "Tech", ""⟩]
    messages := []
    private_messages := [⟨1, 2, 1, "hi", "hello there", 3, false⟩]
    file_areas := [⟨1, "General Files", ""⟩]
    file_listings := [⟨1, 1, "readme.txt", "", 2, 0, 0⟩]
    user_preferences := []
    nextUserId := 3
    nextMessageId := 1
    nextPMId := 2
    nextFileId := 2 }

/-- Test session: fresh guest on the default board. -/
def exGuest : Session :=
  { username := "guest"
    loggedIn := false
    connectionType := "web"
    userId := none
    userRole := none
    currentBoardId := 1
    currentBoardName := "General"
    lastSeenBroadcastIndex := -1
    currentGame := none
    prefs := defaultPrefs }

/-- Test session: the user `alice`, logged in. -/
def exAlice : Session :=
  { exGuest with
    username := "alice"
    loggedIn := true
    userId := some 1
    userRole := some "user" }

/-- Test session: the sysop `sys`, logged in. -/
def exSys : Session :=
  { exGuest with
    username := "sys"
    loggedIn := true
    userId := some 2
    userRole := some "sysop" }

/-- Test state: the three sessions over `exDB`, empty broadcast queue. -/
def exState : BBSState :=
  { sessions := [("s1", exSys), ("s2", exAlice), ("s3", exGuest)]
    broadcasts := []
    db := exDB
    generalBoardCache := some (1, "General") }

/-- Test state with one broadcast entry pending for every session. -/
def exStateB : BBSState :=
  { exState with broadcasts := [⟨"server restarting soon", 5⟩] }

/-- Test state in which `alice`'s session has an active number-guess game
with target 42 and no attempts used. -/
def exStateG : BBSState :=
  { exState with sessions :=
      [("s1", exSys),
       ("s2", { exAlice with currentGame := some ⟨42, 0, 7⟩ }),
       ("s3", exGuest)] }

/-- Test store with two posts on board 1 sharing one timestamp. -/
def exDB4 : DB :=
  { exDB with messages := [⟨1, 1, 1, "a", 5⟩, ⟨2, 1, 2, "b", 5⟩] }


theorem assocGet_nil {α : Type} (k : String) : assocGet ([] : List (String × α)) k = none := rfl

theorem assocGet_cons {α : Type} (p : String × α) (t : List (String × α)) (k : String) :
    assocGet (p :: t) k = if p.1 = k then some p.2 else assocGet t k := by
  by_cases h : p.1 = k <;> simp [assocGet, List.find?, h]

theorem assocSet_cons {α : Type} (p : String × α) (t : List (String × α)) (k : String) (v : α) :
    assocSet (p :: t) k v = if p.1 = k then (k, v) :: t else p :: assocSet t k v := by
  rcases p with ⟨k', v'⟩
  by_cases h : k' = k <;> simp [assocSet, h]

theorem assocGet_set_self {α : Type} (l : List (String × α)) (k : String) (v : α) :
    assocGet (assocSet l k v) k = some v := by
  induction l with
  | nil => simp [assocSet, assocGet_cons]
  | cons p t ih =>
    rw [assocSet_cons]
    by_cases h : p.1 = k
    · simp [h, assocGet_cons]
    · simp [h, assocGet_cons, ih]

theorem assocGet_set_ne {α : Type} (l : List (String × α)) (k k' : String) (v : α)
    (h : k' ≠ k) : assocGet (assocSet l k v) k' = assocGet l k' := by
  induction l with
  | nil => simp [assocSet, assocGet_cons, assocGet_nil, Ne.symm h]
  | cons p t ih =>
    rcases p with ⟨a, b⟩
    rw [assocSet_cons]
    by_cases hp : a = k
    · rw [if_pos hp, assocGet_cons, assocGet_cons]
      rw [if_neg (show ¬(k, v).1 = k' from fun he => h he.symm)]
      rw [if_neg (show ¬(a, b).1 = k' from fun he => h (he.symm.trans hp))]
    · rw [if_neg hp, assocGet_cons, assocGet_cons]
      by_cases hp' : a = k'
      · rw [if_pos hp', if_pos hp']
      · rw [if_neg hp', if_neg hp', ih]

theorem assocSet_eq_self {α : Type} (l : List (String × α)) (k : String) (v : α)
    (h : assocGet l k = some v) : assocSet l k v = l := by
  induction l with
  | nil => simp [assocGet_nil] at h
  | cons p t ih =>
    rw [assocGet_cons] at h
    rw [assocSet_cons]
    by_cases hp : p.1 = k
    · rw [if_pos hp] at h ⊢
      have : p.2 = v := by simpa using h
      rw [← hp, ← this]
    · rw [if_neg hp] at h ⊢
      rw [ih h]

theorem assocGet_mem {α : Type} {l : List (String × α)} {k : String} {v : α}
    (h : assocGet l k = some v) : (k, v) ∈ l := by
  induction l with
  | nil => simp [assocGet_nil] at h
  | cons p t ih =>
    rw [assocGet_cons] at h
    by_cases hp : p.1 = k
    · rw [if_pos hp] at h
      have : p.2 = v := by simpa using h
      have hpv : p = (k, v) := by
        rcases p with ⟨a, b⟩
        simp only at hp this
        rw [hp, this]
      exact hpv ▸ List.mem_cons_self p t
    · rw [if_neg hp] at h
      exact List.mem_cons_of_mem _ (ih h)

theorem mem_assocGet {α : Type} {l : List (String × α)} {k : String} {v : α}
    (hnd : (l.map Prod.fst).Nodup) (h : (k, v) ∈ l) : assocGet l k = some v := by
  induction l with
  | nil => simp at h
  | cons p t ih =>
    simp only [List.map_cons, List.nodup_cons] at hnd
    rw [assocGet_cons]
    rcases List.mem_cons.mp h with h | h
    · rw [if_pos (by rw [← h]), ← h]
    · have hk : p.1 ≠ k := by
        intro he
        exact hnd.1 (he ▸ (List.mem_map.mpr ⟨(k, v), h, rfl⟩))
      rw [if_neg hk]
      exact ih hnd.2 h

theorem assocSet_keys_sub {α : Type} (l : List (String × α)) (k : String) (v : α) :
    ∀ q ∈ assocSet l k v, q ∈ l ∨ q.1 = k := by
  induction l with
  | nil => intro q hq; simp [assocSet] at hq; simp [hq]
  | cons p t ih =>
    intro q hq
    rw [assocSet_cons] at hq
    by_cases hp : p.1 = k
    · rw [if_pos hp] at hq
      rcases List.mem_cons.mp hq with h1 | h1
      · right; rw [h1]
      · left; exact List.mem_cons_of_mem _ h1
    · rw [if_neg hp] at hq
      rcases List.mem_cons.mp hq with h1 | h1
      · left; exact h1 ▸ List.mem_cons_self _ _
      · rcases ih q h1 with h2 | h2
        · left; exact List.mem_cons_of_mem _ h2
        · right; exact h2

theorem assocSet_keysNodup {α : Type} (l : List (String × α)) (k : String) (v : α)
    (h : (l.map Prod.fst).Nodup) : ((assocSet l k v).map Prod.fst).Nodup := by
  induction l with
  | nil => simp [assocSet]
  | cons p t ih =>
    simp only [List.map_cons, List.nodup_cons] at h
    rw [assocSet_cons]
    by_cases hp : p.1 = k
    · rw [if_pos hp]
      simp only [List.map_cons]
      refine List.nodup_cons.mpr ⟨?_, h.2⟩
      rw [← hp]; exact h.1
    · rw [if_neg hp]
      simp only [List.map_cons]
      refine List.nodup_cons.mpr ⟨?_, ih h.2⟩
      intro hm
      rcases List.mem_map.mp hm with ⟨q, hq, hq1⟩
      rcases assocSet_keys_sub t k v q hq with h2 | h2
      · exact h.1 (hq1 ▸ List.mem_map.mpr ⟨q, h2, rfl⟩)
      · exact hp (hq1 ▸ h2)

theorem assocRemove_sublist {α : Type} (l : List (String × α)) (k : String) :
    (assocRemove l k).Sublist l := by
  induction l with
  | nil => simp [assocRemove]
  | cons p t ih =>
    rcases p with ⟨k', v'⟩
    by_cases hp : k' = k
    · simp only [assocRemove, hp, if_pos rfl]
      exact List.sublist_cons_self (k, v') t
    · simpa [assocRemove, hp] using List.Sublist.cons₂ (k', v') ih

theorem kickLoop_cons (cs t sid : String) (s : Session)
    (rest : List (String × Session)) :
    kickLoop cs t ((sid, s) :: rest) =
      if (s.username = t && s.loggedIn) = true then
        (if sid = cs then ((sid, s) :: rest, some "You cannot kick yourself.\n")
         else (rest, some ("User " ++ t ++ " has been kicked. Their session is invalidated.\n")))
      else ((sid, s) :: (kickLoop cs t rest).1, (kickLoop cs t rest).2) := by
  by_cases h : (s.username = t && s.loggedIn) = true
  · by_cases h2 : sid = cs <;> simp [kickLoop, h, h2]
  · simp [kickLoop, h]

theorem kickLoop_sublist (cs t : String) (l : List (String × Session)) :
    (kickLoop cs t l).1.Sublist l := by
  induction l with
  | nil => simp [kickLoop]
  | cons p u ih =>
    rcases p with ⟨sid, s⟩
    rw [kickLoop_cons]
    by_cases h : (s.username = t && s.loggedIn) = true
    · rw [if_pos h]
      by_cases h2 : sid = cs
      · simp [h2]
      · rw [if_neg h2]
        exact List.sublist_cons_self (sid, s) u
    · rw [if_neg h]
      exact List.Sublist.cons₂ (sid, s) ih

theorem frame_of_sublist {l res : List (String × Session)}
    (h : res.Sublist l) (hnd : (l.map Prod.fst).Nodup) :
    ∀ k s', assocGet res k = some s' → assocGet l k = some s' := by
  intro k s' hg
  exact mem_assocGet hnd (h.mem (assocGet_mem hg))

theorem kickLoop_assocGet_caller (cs t : String) (l : List (String × Session)) :
    assocGet (kickLoop cs t l).1 cs = assocGet l cs := by
  induction l with
  | nil => simp [kickLoop]
  | cons p u ih =>
    rcases p with ⟨sid, s⟩
    rw [kickLoop_cons]
    by_cases h : (s.username = t && s.loggedIn) = true
    · rw [if_pos h]
      by_cases h2 : sid = cs
      · rw [if_pos h2]
      · rw [if_neg h2]
        simp only [assocGet_cons]
        rw [if_neg (show ¬(sid, s).1 = cs from h2)]
    · rw [if_neg h]
      simp only [assocGet_cons]
      by_cases h2 : sid = cs
      · rw [if_pos h2, if_pos h2]
      · rw [if_neg h2, if_neg h2, ih]

theorem kickLoop_self (cs t : String) (l : List (String × Session))
    (q : String × Session)
    (hf : l.find? (fun p => p.2.username = t && p.2.loggedIn) = some q)
    (hq : q.1 = cs) :
    kickLoop cs t l = (l, some "You cannot kick yourself.\n") := by
  induction l with
  | nil => simp [List.find?] at hf
  | cons p u ih =>
    rcases p with ⟨sid, s⟩
    rw [kickLoop_cons]
    by_cases h : (s.username = t && s.loggedIn) = true
    · rw [if_pos h]
      rw [List.find?_cons_of_pos _ (by simpa using h)] at hf
      have hsid : sid = cs := by
        have h1 : ((sid, s) : String × Session) = q := by simpa using hf
        rw [← h1] at hq
        exact hq
      rw [if_pos hsid]
    · rw [if_neg h]
      rw [List.find?_cons_of_neg _ (by simpa using h)] at hf
      rw [ih hf]

theorem advanceSeen_ge (q : List BMsg) (i : Int) : i ≤ advanceSeen q i := by
  unfold advanceSeen
  split
  · next h => omega
  · exact le_refl i

theorem advanceSeen_lb (q : List BMsg) (i : Int) (h : -1 ≤ i) :
    -1 ≤ advanceSeen q i := le_trans h (advanceSeen_ge q i)

theorem advanceSeen_ub (q : List BMsg) (i : Int) (h : i < (q.length : Int)) :
    advanceSeen q i < (q.length : Int) := by
  unfold advanceSeen
  split
  · omega
  · exact h

theorem broadcastBlockText_advance (t : Bool) (q : List BMsg) (i : Int) :
    broadcastBlockText t q (advanceSeen q i) = "" := by
  unfold broadcastBlockText advanceSeen
  by_cases h : 0 < q.length ∧ i + 1 < (q.length : Int)
  · rw [if_pos h, if_neg (by omega)]
  · rw [if_neg h, if_neg h]

/-- Facts every dispatch case provides, used by the broadcast-delivery and
index-invariant theorems: the queue only grows, surviving sessions keep their
broadcast-seen index, the caller survives with its index, key distinctness is
kept, and the outcome is a `normal` response (never starting with `Welcome,`
unless LOGIN) or the LOGIN `direct` response ending in the pending
broadcasts. -/
structure CmdOk (st : BBSState) (c : Ctx) (r : BBSState × DOut) : Prop where
  bext : ∃ tail, r.1.broadcasts = st.broadcasts ++ tail
  frame : (st.sessions.map Prod.fst).Nodup →
    ∀ k s', assocGet r.1.sessions k = some s' →
      ∃ s, assocGet st.sessions k = some s ∧
        s'.lastSeenBroadcastIndex = s.lastSeenBroadcastIndex
  caller : ∃ s', assocGet r.1.sessions c.sid = some s' ∧
    s'.lastSeenBroadcastIndex = c.session.lastSeenBroadcastIndex
  nodup : (st.sessions.map Prod.fst).Nodup → (r.1.sessions.map Prod.fst).Nodup
  out : (∃ resp, r.2 = DOut.normal resp ∧
          (c.cmd = "LOGIN" → jsStartsWith resp "Welcome," = false)) ∨
        (c.cmd = "LOGIN" ∧ ∃ w, r.2 = DOut.direct (w ++ c.bText))

theorem cmdok_of_eqs (st : BBSState) (c : Ctx) (r : BBSState × DOut)
    (hses : r.1.sessions = st.sessions) (hbr : r.1.broadcasts = st.broadcasts)
    (hsid : assocGet st.sessions c.sid = some c.session)
    (hout : (∃ resp, r.2 = DOut.normal resp ∧
        (c.cmd = "LOGIN" → jsStartsWith resp "Welcome," = false)) ∨
      (c.cmd = "LOGIN" ∧ ∃ w, r.2 = DOut.direct (w ++ c.bText))) :
    CmdOk st c r :=
  ⟨⟨[], by rw [hbr, List.append_nil]⟩,
   fun _ k s' hg => ⟨s', by rw [← hses]; exact hg, rfl⟩,
   ⟨c.session, by rw [hses]; exact hsid, rfl⟩,
   fun h => by rw [hses]; exact h,
   hout⟩

theorem cmdok_of_set (st : BBSState) (c : Ctx) (r : BBSState × DOut) (s₁ : Session)
    (hses : r.1.sessions = assocSet st.sessions c.sid s₁)
    (hidx : s₁.lastSeenBroadcastIndex = c.session.lastSeenBroadcastIndex)
    (hbr : r.1.broadcasts = st.broadcasts)
    (hsid : assocGet st.sessions c.sid = some c.session)
    (hout : (∃ resp, r.2 = DOut.normal resp ∧
        (c.cmd = "LOGIN" → jsStartsWith resp "Welcome," = false)) ∨
      (c.cmd = "LOGIN" ∧ ∃ w, r.2 = DOut.direct (w ++ c.bText))) :
    CmdOk st c r := by
  refine ⟨⟨[], by rw [hbr, List.append_nil]⟩, ?_, ?_, ?_, hout⟩
  · intro _ k s' hg
    rw [hses] at hg
    by_cases hk : k = c.sid
    · subst hk
      rw [assocGet_set_self] at hg
      refine ⟨c.session, hsid, ?_⟩
      rw [← Option.some_inj.mp hg]
      exact hidx
    · rw [assocGet_set_ne _ _ _ _ hk] at hg
      exact ⟨s', hg, rfl⟩
  · refine ⟨s₁, ?_, hidx⟩
    rw [hses]
    exact assocGet_set_self _ _ _
  · intro h
    rw [hses]
    exact assocSet_keysNodup _ _ _ h

theorem cmdok_of_bappend (st : BBSState) (c : Ctx) (r : BBSState × DOut)
    (tail : List BMsg)
    (hses : r.1.sessions = st.sessions)
    (hbr : r.1.broadcasts = st.broadcasts ++ tail)
    (hsid : assocGet st.sessions c.sid = some c.session)
    (hout : (∃ resp, r.2 = DOut.normal resp ∧
        (c.cmd = "LOGIN" → jsStartsWith resp "Welcome," = false)) ∨
      (c.cmd = "LOGIN" ∧ ∃ w, r.2 = DOut.direct (w ++ c.bText))) :
    CmdOk st c r :=
  ⟨⟨tail, hbr⟩,
   fun _ k s' hg => ⟨s', by rw [← hses]; exact hg, rfl⟩,
   ⟨c.session, by rw [hses]; exact hsid, rfl⟩,
   fun h => by rw [hses]; exact h,
   hout⟩

theorem cmdSAY_ok (st : BBSState) (c : Ctx)
    (hsid : assocGet st.sessions c.sid = some c.session) (hcmd : c.cmd = "SAY") :
    CmdOk st c (cmdSAY st c) := by
  have hW : ∀ resp : String, c.cmd = "LOGIN" → jsStartsWith resp "Welcome," = false := by
    intro resp h
    rw [hcmd] at h
    exact absurd h (by decide)
  unfold cmdSAY
  split
  · exact cmdok_of_eqs _ _ _ rfl rfl hsid (Or.inl ⟨_, rfl, hW _⟩)
  · dsimp only
    split
    · exact cmdok_of_eqs _ _ _ rfl rfl hsid (Or.inl ⟨_, rfl, hW _⟩)
    · exact cmdok_of_eqs _ _ _ rfl rfl hsid (Or.inl ⟨_, rfl, hW _⟩)

theorem setDefaultBoard_idx (cache : Option (Nat × String)) (s : Session) :
    (setDefaultBoardForSession cache s).lastSeenBroadcastIndex =
      s.lastSeenBroadcastIndex := by
  unfold setDefaultBoardForSession
  split <;> rfl

theorem quitGame_idx (s : Session) :
    (quitGame s).1.lastSeenBroadcastIndex = s.lastSeenBroadcastIndex := by
  unfold quitGame
  split <;> rfl

theorem startGame_idx (rand : Nat) (s : Session) :
    (startGame rand s).1.lastSeenBroadcastIndex = s.lastSeenBroadcastIndex := rfl

theorem handleGuess_idx (s : Session) (g : String) :
    (handleGuess s g).1.lastSeenBroadcastIndex = s.lastSeenBroadcastIndex := by
  unfold handleGuess
  repeat' (first | rfl | dsimp only | split)

theorem cmdREGISTER_ok (st : BBSState) (c : Ctx)
    (hsid : assocGet st.sessions c.sid = some c.session) (hcmd : c.cmd = "REGISTER") :
    CmdOk st c (cmdREGISTER st c) := by
  have hW : ∀ resp : String, c.cmd = "LOGIN" → jsStartsWith resp "Welcome," = false := by
    intro resp h
    rw [hcmd] at h
    exact absurd h (by decide)
  unfold cmdREGISTER
  repeat' (first
    | dsimp only
    | split
    | exact cmdok_of_eqs _ _ _ rfl rfl hsid (Or.inl ⟨_, rfl, hW _⟩))

theorem cmdLOGIN_ok (st : BBSState) (c : Ctx)
    (hsid : assocGet st.sessions c.sid = some c.session)
    (hcmd : c.cmd = "LOGIN") :
    CmdOk st c (cmdLOGIN st c) := by
  unfold cmdLOGIN
  split
  · split
    · split
      · dsimp only
        refine cmdok_of_set st c _ _ rfl ?_ rfl hsid (Or.inr ⟨hcmd, _, rfl⟩)
        split
        · rw [setDefaultBoard_idx]
        · rw [setDefaultBoard_idx]
      · exact cmdok_of_eqs _ _ _ rfl rfl hsid (Or.inl ⟨_, rfl, fun _ => by decide⟩)
    · exact cmdok_of_eqs _ _ _ rfl rfl hsid (Or.inl ⟨_, rfl, fun _ => by decide⟩)
  · exact cmdok_of_eqs _ _ _ rfl rfl hsid (Or.inl ⟨_, rfl, fun _ => by decide⟩)

theorem cmdLOGOUT_ok (st : BBSState) (c : Ctx)
    (hsid : assocGet st.sessions c.sid = some c.session) (hcmd : c.cmd = "LOGOUT") :
    CmdOk st c (cmdLOGOUT st c) := by
  have hW : ∀ resp : String, c.cmd = "LOGIN" → jsStartsWith resp "Welcome," = false := by
    intro resp h
    rw [hcmd] at h
    exact absurd h (by decide)
  unfold cmdLOGOUT
  exact cmdok_of_set st c _ _ rfl (by rw [setDefaultBoard_idx]) rfl hsid
    (Or.inl ⟨_, rfl, hW _⟩)

theorem cmdLOOK_ok (st : BBSState) (c : Ctx)
    (hsid : assocGet st.sessions c.sid = some c.session) (hcmd : c.cmd = "LOOK") :
    CmdOk st c (cmdLOOK st c) := by
  have hW : ∀ resp : String, c.cmd = "LOGIN" → jsStartsWith resp "Welcome," = false := by
    intro resp h
    rw [hcmd] at h
    exact absurd h (by decide)
  unfold cmdLOOK
  exact cmdok_of_eqs _ _ _ rfl rfl hsid (Or.inl ⟨_, rfl, hW _⟩)

theorem cmdWHO_ok (st : BBSState) (c : Ctx)
    (hsid : assocGet st.sessions c.sid = some c.session) (hcmd : c.cmd = "WHO") :
    CmdOk st c (cmdWHO st c) := by
  have hW : ∀ resp : String, c.cmd = "LOGIN" → jsStartsWith resp "Welcome," = false := by
    intro resp h
    rw [hcmd] at h
    exact absurd h (by decide)
  unfold cmdWHO
  exact cmdok_of_eqs _ _ _ rfl rfl hsid (Or.inl ⟨_, rfl, hW _⟩)

theorem cmdLISTBOARDS_ok (st : BBSState) (c : Ctx)
    (hsid : assocGet st.sessions c.sid = some c.session) (hcmd : c.cmd = "LISTBOARDS") :
    CmdOk st c (cmdLISTBOARDS st c) := by
  have hW : ∀ resp : String, c.cmd = "LOGIN" → jsStartsWith resp "Welcome," = false := by
    intro resp h
    rw [hcmd] at h
    exact absurd h (by decide)
  unfold cmdLISTBOARDS
  exact cmdok_of_eqs _ _ _ rfl rfl hsid (Or.inl ⟨_, rfl, hW _⟩)

theorem cmdJOINBOARD_ok (st : BBSState) (c : Ctx)
    (hsid : assocGet st.sessions c.sid = some c.session) (hcmd : c.cmd = "JOINBOARD") :
    CmdOk st c (cmdJOINBOARD st c) := by
  have hW : ∀ resp : String, c.cmd = "LOGIN" → jsStartsWith resp "Welcome," = false := by
    intro resp h
    rw [hcmd] at h
    exact absurd h (by decide)
  unfold cmdJOINBOARD
  repeat' (first
    | dsimp only
    | split
    | exact cmdok_of_eqs _ _ _ rfl rfl hsid (Or.inl ⟨_, rfl, hW _⟩)
    | exact cmdok_of_set st c _ _ rfl rfl rfl hsid (Or.inl ⟨_, rfl, hW _⟩))

theorem cmdSENDMAIL_ok (st : BBSState) (c : Ctx)
    (hsid : assocGet st.sessions c.sid = some c.session) (hcmd : c.cmd = "SENDMAIL") :
    CmdOk st c (cmdSENDMAIL st c) := by
  have hW : ∀ resp : String, c.cmd = "LOGIN" → jsStartsWith resp "Welcome," = false := by
    intro resp h
    rw [hcmd] at h
    exact absurd h (by decide)
  unfold cmdSENDMAIL
  repeat' (first
    | dsimp only
    | split
    | exact cmdok_of_eqs _ _ _ rfl rfl hsid (Or.inl ⟨_, rfl, hW _⟩))

theorem cmdLISTMAIL_ok (st : BBSState) (c : Ctx)
    (hsid : assocGet st.sessions c.sid = some c.session) (hcmd : c.cmd = "LISTMAIL") :
    CmdOk st c (cmdLISTMAIL st c) := by
  have hW : ∀ resp : String, c.cmd = "LOGIN" → jsStartsWith resp "Welcome," = false := by
    intro resp h
    rw [hcmd] at h
    exact absurd h (by decide)
  unfold cmdLISTMAIL
  repeat' (first
    | dsimp only
    | split
    | exact cmdok_of_eqs _ _ _ rfl rfl hsid (Or.inl ⟨_, rfl, hW _⟩))

theorem cmdREADMAIL_ok (st : BBSState) (c : Ctx)
    (hsid : assocGet st.sessions c.sid = some c.session) (hcmd : c.cmd = "READMAIL") :
    CmdOk st c (cmdREADMAIL st c) := by
  have hW : ∀ resp : String, c.cmd = "LOGIN" → jsStartsWith resp "Welcome," = false := by
    intro resp h
    rw [hcmd] at h
    exact absurd h (by decide)
  unfold cmdREADMAIL
  repeat' (first
    | dsimp only
    | split
    | exact cmdok_of_eqs _ _ _ rfl rfl hsid (Or.inl ⟨_, rfl, hW _⟩))

theorem cmdDELETEMAIL_ok (st : BBSState) (c : Ctx)
    (hsid : assocGet st.sessions c.sid = some c.session) (hcmd : c.cmd = "DELETEMAIL") :
    CmdOk st c (cmdDELETEMAIL st c) := by
  have hW : ∀ resp : String, c.cmd = "LOGIN" → jsStartsWith resp "Welcome," = false := by
    intro resp h
    rw [hcmd] at h
    exact absurd h (by decide)
  unfold cmdDELETEMAIL
  repeat' (first
    | dsimp only
    | split
    | exact cmdok_of_eqs _ _ _ rfl rfl hsid (Or.inl ⟨_, rfl, hW _⟩))

theorem cmdKICK_ok (st : BBSState) (c : Ctx)
    (hsid : assocGet st.sessions c.sid = some c.session) (hcmd : c.cmd = "KICK") :
    CmdOk st c (cmdKICK st c) := by
  have hW : ∀ resp : String, c.cmd = "LOGIN" → jsStartsWith resp "Welcome," = false := by
    intro resp h
    rw [hcmd] at h
    exact absurd h (by decide)
  unfold cmdKICK
  split
  · exact cmdok_of_eqs _ _ _ rfl rfl hsid (Or.inl ⟨_, rfl, hW _⟩)
  · split
    · dsimp only
      split
      · exact cmdok_of_eqs _ _ _ rfl rfl hsid (Or.inl ⟨_, rfl, hW _⟩)
      · split
        · next resp _ =>
          refine ⟨⟨[], by simp⟩, ?_, ?_, ?_, Or.inl ⟨_, rfl, hW _⟩⟩
          · intro hnd k s' hg
            exact ⟨s', frame_of_sublist (kickLoop_sublist _ _ _) hnd k s' hg, rfl⟩
          · refine ⟨c.session, ?_, rfl⟩
            rw [kickLoop_assocGet_caller]
            exact hsid
          · intro h
            exact h.sublist ((kickLoop_sublist _ _ _).map Prod.fst)
        · exact cmdok_of_eqs _ _ _ rfl rfl hsid (Or.inl ⟨_, rfl, hW _⟩)
    · exact cmdok_of_eqs _ _ _ rfl rfl hsid (Or.inl ⟨_, rfl, hW _⟩)

theorem cmdBROADCAST_ok (st : BBSState) (c : Ctx)
    (hsid : assocGet st.sessions c.sid = some c.session) (hcmd : c.cmd = "BROADCAST") :
    CmdOk st c (cmdBROADCAST st c) := by
  have hW : ∀ resp : String, c.cmd = "LOGIN" → jsStartsWith resp "Welcome," = false := by
    intro resp h
    rw [hcmd] at h
    exact absurd h (by decide)
  unfold cmdBROADCAST
  split
  · exact cmdok_of_eqs _ _ _ rfl rfl hsid (Or.inl ⟨_, rfl, hW _⟩)
  · dsimp only
    split
    · exact cmdok_of_eqs _ _ _ rfl rfl hsid (Or.inl ⟨_, rfl, hW _⟩)
    · exact cmdok_of_bappend st c _ _ rfl rfl hsid (Or.inl ⟨_, rfl, hW _⟩)

theorem cmdEDITMESSAGE_ok (st : BBSState) (c : Ctx)
    (hsid : assocGet st.sessions c.sid = some c.session) (hcmd : c.cmd = "EDITMESSAGE") :
    CmdOk st c (cmdEDITMESSAGE st c) := by
  have hW : ∀ resp : String, c.cmd = "LOGIN" → jsStartsWith resp "Welcome," = false := by
    intro resp h
    rw [hcmd] at h
    exact absurd h (by decide)
  unfold cmdEDITMESSAGE
  repeat' (first
    | dsimp only
    | split
    | exact cmdok_of_eqs _ _ _ rfl rfl hsid (Or.inl ⟨_, rfl, hW _⟩))

theorem cmdDELETEMESSAGE_ok (st : BBSState) (c : Ctx)
    (hsid : assocGet st.sessions c.sid = some c.session) (hcmd : c.cmd = "DELETEMESSAGE") :
    CmdOk st c (cmdDELETEMESSAGE st c) := by
  have hW : ∀ resp : String, c.cmd = "LOGIN" → jsStartsWith resp "Welcome," = false := by
    intro resp h
    rw [hcmd] at h
    exact absurd h (by decide)
  unfold cmdDELETEMESSAGE
  repeat' (first
    | dsimp only
    | split
    | exact cmdok_of_eqs _ _ _ rfl rfl hsid (Or.inl ⟨_, rfl, hW _⟩))

theorem cmdLISTFILEAREAS_ok (st : BBSState) (c : Ctx)
    (hsid : assocGet st.sessions c.sid = some c.session) (hcmd : c.cmd = "LISTFILEAREAS") :
    CmdOk st c (cmdLISTFILEAREAS st c) := by
  have hW : ∀ resp : String, c.cmd = "LOGIN" → jsStartsWith resp "Welcome," = false := by
    intro resp h
    rw [hcmd] at h
    exact absurd h (by decide)
  unfold cmdLISTFILEAREAS
  exact cmdok_of_eqs _ _ _ rfl rfl hsid (Or.inl ⟨_, rfl, hW _⟩)

theorem cmdUPLOADINFO_ok (st : BBSState) (c : Ctx)
    (hsid : assocGet st.sessions c.sid = some c.session) (hcmd : c.cmd = "UPLOADINFO") :
    CmdOk st c (cmdUPLOADINFO st c) := by
  have hW : ∀ resp : String, c.cmd = "LOGIN" → jsStartsWith resp "Welcome," = false := by
    intro resp h
    rw [hcmd] at h
    exact absurd h (by decide)
  unfold cmdUPLOADINFO
  repeat' (first
    | dsimp only
    | split
    | exact cmdok_of_eqs _ _ _ rfl rfl hsid (Or.inl ⟨_, rfl, hW _⟩))

theorem cmdLISTFILES_ok (st : BBSState) (c : Ctx)
    (hsid : assocGet st.sessions c.sid = some c.session) (hcmd : c.cmd = "LISTFILES") :
    CmdOk st c (cmdLISTFILES st c) := by
  have hW : ∀ resp : String, c.cmd = "LOGIN" → jsStartsWith resp "Welcome," = false := by
    intro resp h
    rw [hcmd] at h
    exact absurd h (by decide)
  unfold cmdLISTFILES
  repeat' (first
    | dsimp only
    | split
    | exact cmdok_of_eqs _ _ _ rfl rfl hsid (Or.inl ⟨_, rfl, hW _⟩))

theorem cmdFILEDESC_ok (st : BBSState) (c : Ctx)
    (hsid : assocGet st.sessions c.sid = some c.session) (hcmd : c.cmd = "FILEDESC") :
    CmdOk st c (cmdFILEDESC st c) := by
  have hW : ∀ resp : String, c.cmd = "LOGIN" → jsStartsWith resp "Welcome," = false := by
    intro resp h
    rw [hcmd] at h
    exact absurd h (by decide)
  unfold cmdFILEDESC
  repeat' (first
    | dsimp only
    | split
    | exact cmdok_of_eqs _ _ _ rfl rfl hsid (Or.inl ⟨_, rfl, hW _⟩))

theorem cmdDOWNLOADINFO_ok (st : BBSState) (c : Ctx)
    (hsid : assocGet st.sessions c.sid = some c.session) (hcmd : c.cmd = "DOWNLOADINFO") :
    CmdOk st c (cmdDOWNLOADINFO st c) := by
  have hW : ∀ resp : String, c.cmd = "LOGIN" → jsStartsWith resp "Welcome," = false := by
    intro resp h
    rw [hcmd] at h
    exact absurd h (by decide)
  unfold cmdDOWNLOADINFO
  repeat' (first
    | dsimp only
    | split
    | exact cmdok_of_eqs _ _ _ rfl rfl hsid (Or.inl ⟨_, rfl, hW _⟩))

theorem cmdGAME_ok (st : BBSState) (c : Ctx)
    (hsid : assocGet st.sessions c.sid = some c.session) (hcmd : c.cmd = "GAME") :
    CmdOk st c (cmdGAME st c) := by
  have hW : ∀ resp : String, c.cmd = "LOGIN" → jsStartsWith resp "Welcome," = false := by
    intro resp h
    rw [hcmd] at h
    exact absurd h (by decide)
  unfold cmdGAME
  repeat' (first
    | dsimp only
    | split
    | exact cmdok_of_eqs _ _ _ rfl rfl hsid (Or.inl ⟨_, rfl, hW _⟩)
    | exact cmdok_of_set st c _ _ rfl (quitGame_idx _) rfl hsid (Or.inl ⟨_, rfl, hW _⟩)
    | exact cmdok_of_set st c _ _ rfl (startGame_idx _ _) rfl hsid (Or.inl ⟨_, rfl, hW _⟩))

theorem cmdHELP_ok (st : BBSState) (c : Ctx)
    (hsid : assocGet st.sessions c.sid = some c.session) (hcmd : c.cmd = "HELP") :
    CmdOk st c (cmdHELP st c) := by
  have hW : ∀ resp : String, c.cmd = "LOGIN" → jsStartsWith resp "Welcome," = false := by
    intro resp h
    rw [hcmd] at h
    exact absurd h (by decide)
  unfold cmdHELP
  repeat' (first
    | dsimp only
    | split
    | exact cmdok_of_eqs _ _ _ rfl rfl hsid (Or.inl ⟨_, rfl, hW _⟩))

theorem cmdSETCOLOR_ok (st : BBSState) (c : Ctx)
    (hsid : assocGet st.sessions c.sid = some c.session) (hcmd : c.cmd = "SETCOLOR") :
    CmdOk st c (cmdSETCOLOR st c) := by
  have hW : ∀ resp : String, c.cmd = "LOGIN" → jsStartsWith resp "Welcome," = false := by
    intro resp h
    rw [hcmd] at h
    exact absurd h (by decide)
  unfold cmdSETCOLOR
  repeat' (first
    | dsimp only
    | split
    | exact cmdok_of_eqs _ _ _ rfl rfl hsid (Or.inl ⟨_, rfl, hW _⟩)
    | exact cmdok_of_set st c _ _ rfl rfl rfl hsid (Or.inl ⟨_, rfl, hW _⟩))

theorem dispatch_ok (st : BBSState) (c : Ctx)
    (hsid : assocGet st.sessions c.sid = some c.session) :
    CmdOk st c (dispatch st c) := by
  unfold dispatch
  by_cases h1 : c.cmd = "REGISTER"
  · rw [if_pos h1]
    exact cmdREGISTER_ok st c hsid h1
  rw [if_neg h1]
  by_cases h2 : c.cmd = "LOGIN"
  · rw [if_pos h2]
    exact cmdLOGIN_ok st c hsid h2
  rw [if_neg h2]
  by_cases h3 : c.cmd = "LOGOUT"
  · rw [if_pos h3]
    exact cmdLOGOUT_ok st c hsid h3
  rw [if_neg h3]
  by_cases h4 : c.cmd = "LOOK"
  · rw [if_pos h4]
    exact cmdLOOK_ok st c hsid h4
  rw [if_neg h4]
  by_cases h5 : c.cmd = "SAY"
  · rw [if_pos h5]
    exact cmdSAY_ok st c hsid h5
  rw [if_neg h5]
  by_cases h6 : c.cmd = "WHO"
  · rw [if_pos h6]
    exact cmdWHO_ok st c hsid h6
  rw [if_neg h6]
  by_cases h7 : c.cmd = "LISTBOARDS"
  · rw [if_pos h7]
    exact cmdLISTBOARDS_ok st c hsid h7
  rw [if_neg h7]
  by_cases h8 : c.cmd = "JOINBOARD"
  · rw [if_pos h8]
    exact cmdJOINBOARD_ok st c hsid h8
  rw [if_neg h8]
  by_cases h9 : c.cmd = "SENDMAIL"
  · rw [if_pos h9]
    exact cmdSENDMAIL_ok st c hsid h9
  rw [if_neg h9]
  by_cases h10 : c.cmd = "LISTMAIL"
  · rw [if_pos h10]
    exact cmdLISTMAIL_ok st c hsid h10
  rw [if_neg h10]
  by_cases h11 : c.cmd = "READMAIL"
  · rw [if_pos h11]
    exact cmdREADMAIL_ok st c hsid h11
  rw [if_neg h11]
  by_cases h12 : c.cmd = "DELETEMAIL"
  · rw [if_pos h12]
    exact cmdDELETEMAIL_ok st c hsid h12
  rw [if_neg h12]
  by_cases h13 : c.cmd = "KICK"
  · rw [if_pos h13]
    exact cmdKICK_ok st c hsid h13
  rw [if_neg h13]
  by_cases h14 : c.cmd = "BROADCAST"
  · rw [if_pos h14]
    exact cmdBROADCAST_ok st c hsid h14
  rw [if_neg h14]
  by_cases h15 : c.cmd = "EDITMESSAGE"
  · rw [if_pos h15]
    exact cmdEDITMESSAGE_ok st c hsid h15
  rw [if_neg h15]
  by_cases h16 : c.cmd = "DELETEMESSAGE"
  · rw [if_pos h16]
    exact cmdDELETEMESSAGE_ok st c hsid h16
  rw [if_neg h16]
  by_cases h17 : c.cmd = "LISTFILEAREAS"
  · rw [if_pos h17]
    exact cmdLISTFILEAREAS_ok st c hsid h17
  rw [if_neg h17]
  by_cases h18 : c.cmd = "UPLOADINFO"
  · rw [if_pos h18]
    exact cmdUPLOADINFO_ok st c hsid h18
  rw [if_neg h18]
  by_cases h19 : c.cmd = "LISTFILES"
  · rw [if_pos h19]
    exact cmdLISTFILES_ok st c hsid h19
  rw [if_neg h19]
  by_cases h20 : c.cmd = "FILEDESC"
  · rw [if_pos h20]
    exact cmdFILEDESC_ok st c hsid h20
  rw [if_neg h20]
  by_cases h21 : c.cmd = "DOWNLOADINFO"
  · rw [if_pos h21]
    exact cmdDOWNLOADINFO_ok st c hsid h21
  rw [if_neg h21]
  by_cases h22 : c.cmd = "GAME"
  · rw [if_pos h22]
    exact cmdGAME_ok st c hsid h22
  rw [if_neg h22]
  by_cases h23 : c.cmd = "HELP"
  · rw [if_pos h23]
    exact cmdHELP_ok st c hsid h23
  rw [if_neg h23]
  by_cases h24 : c.cmd = "SETCOLOR"
  · rw [if_pos h24]
    exact cmdSETCOLOR_ok st c hsid h24
  rw [if_neg h24]
  by_cases h25 : c.cmd = ""
  · rw [if_pos h25]
    exact cmdok_of_eqs _ _ _ rfl rfl hsid (Or.inl ⟨_, rfl, fun hh => absurd hh h2⟩)
  rw [if_neg h25]
  exact cmdok_of_eqs _ _ _ rfl rfl hsid (Or.inl ⟨_, rfl, fun hh => absurd hh h2⟩)

theorem assocSet_mem {α : Type} {l : List (String × α)} {k : String} {v : α} :
    ∀ q ∈ assocSet l k v, q ∈ l ∨ q = (k, v) := by
  induction l with
  | nil =>
    intro q hq
    simp [assocSet] at hq
    simp [hq]
  | cons p t ih =>
    intro q hq
    rw [assocSet_cons] at hq
    by_cases hp : p.1 = k
    · rw [if_pos hp] at hq
      rcases List.mem_cons.mp hq with h1 | h1
      · right; rw [h1]
      · left; exact List.mem_cons_of_mem _ h1
    · rw [if_neg hp] at hq
      rcases List.mem_cons.mp hq with h1 | h1
      · left; exact h1 ▸ List.mem_cons_self _ _
      · rcases ih q h1 with h2 | h2
        · left; exact List.mem_cons_of_mem _ h2
        · right; exact h2

theorem processCommand_state (st : BBSState) (sid : String) (s : Session)
    (input : String) (now rand : Nat) :
    (processCommand st sid s input now rand).1 =
      (dispatch (procSt1 st sid s) (procCtx st sid s input now rand)).1 := by
  unfold processCommand
  dsimp only
  rcases hd : (dispatch (procSt1 st sid s) (procCtx st sid s input now rand)).2 with resp | resp
  · dsimp only
    split <;> rfl
  · rfl

theorem processCommand_spec (st : BBSState) (sid : String) (s : Session)
    (input : String) (now rand : Nat)
    (hsid : assocGet st.sessions sid = some s) :
    ((∃ rest, (processCommand st sid s input now rand).2 =
        broadcastBlockText (s.connectionType = "telnet") st.broadcasts
          s.lastSeenBroadcastIndex ++ rest) ∨
      ((parseCommand input).1 = "LOGIN" ∧
        ∃ rest, (processCommand st sid s input now rand).2 =
          rest ++ broadcastBlockText (s.connectionType = "telnet") st.broadcasts
            s.lastSeenBroadcastIndex)) ∧
    (∃ s', assocGet (processCommand st sid s input now rand).1.sessions sid = some s' ∧
      s'.lastSeenBroadcastIndex = advanceSeen st.broadcasts s.lastSeenBroadcastIndex) ∧
    (∃ tail, (processCommand st sid s input now rand).1.broadcasts =
      st.broadcasts ++ tail) ∧
    ((st.sessions.map Prod.fst).Nodup →
      ((processCommand st sid s input now rand).1.sessions.map Prod.fst).Nodup) ∧
    ((st.sessions.map Prod.fst).Nodup →
      ∀ k s', assocGet (processCommand st sid s input now rand).1.sessions k = some s' →
        ∃ s0, assocGet st.sessions k = some s0 ∧
          (s'.lastSeenBroadcastIndex = s0.lastSeenBroadcastIndex ∨
           s'.lastSeenBroadcastIndex =
             advanceSeen st.broadcasts s0.lastSeenBroadcastIndex)) := by
  have hsid1 : assocGet (procSt1 st sid s).sessions
      (procCtx st sid s input now rand).sid =
      some (procCtx st sid s input now rand).session :=
    assocGet_set_self _ _ _
  have hok := dispatch_ok (procSt1 st sid s) (procCtx st sid s input now rand) hsid1
  rcases hok with ⟨⟨tail, hbr⟩, hframe, ⟨sc, hsc, hscidx⟩, hnd, hout⟩
  have hstate := processCommand_state st sid s input now rand
  refine ⟨?_, ?_, ?_, ?_, ?_⟩
  · rcases hout with ⟨resp, ho, hwel⟩ | ⟨hL, w, ho⟩
    · left
      refine ⟨resp, ?_⟩
      unfold processCommand
      dsimp only
      rw [ho]
      dsimp only
      have hcond : (decide ((procCtx st sid s input now rand).cmd = "LOGIN") &&
          jsStartsWith resp "Welcome,") = false := by
        by_cases hL : (procCtx st sid s input now rand).cmd = "LOGIN"
        · rw [hwel hL, Bool.and_false]
        · rw [decide_eq_false hL, Bool.false_and]
      rw [if_neg (by simp [hcond])]
      rfl
    · right
      refine ⟨hL, w, ?_⟩
      unfold processCommand
      dsimp only
      rw [ho]
      rfl
  · refine ⟨sc, ?_, ?_⟩
    · rw [hstate]
      exact hsc
    · exact hscidx
  · refine ⟨tail, ?_⟩
    rw [hstate]
    exact hbr
  · intro h
    rw [hstate]
    exact hnd (assocSet_keysNodup _ _ _ h)
  · intro hnd0 k s' hg
    rw [hstate] at hg
    obtain ⟨s1, hs1, hidx⟩ := hframe (assocSet_keysNodup _ _ _ hnd0) k s' hg
    by_cases hk : k = sid
    · rw [hk] at hs1 ⊢
      rw [show (procSt1 st sid s).sessions =
          assocSet st.sessions sid (advSession st.broadcasts s) from rfl,
        assocGet_set_self] at hs1
      refine ⟨s, hsid, Or.inr ?_⟩
      rw [hidx, ← Option.some_inj.mp hs1]
      rfl
    · rw [show (procSt1 st sid s).sessions =
          assocSet st.sessions sid (advSession st.broadcasts s) from rfl,
        assocGet_set_ne _ _ _ _ hk] at hs1
      exact ⟨s1, hs1, Or.inl hidx⟩

theorem processInput_state_spec (st : BBSState) (sid input : String)
    (now rand : Nat) :
    (∃ tail, (processInput st sid input now rand).1.broadcasts =
      st.broadcasts ++ tail) ∧
    ((st.sessions.map Prod.fst).Nodup →
      ((processInput st sid input now rand).1.sessions.map Prod.fst).Nodup) ∧
    ((st.sessions.map Prod.fst).Nodup →
      ∀ k s', assocGet (processInput st sid input now rand).1.sessions k = some s' →
        ∃ s0, assocGet st.sessions k = some s0 ∧
          (s'.lastSeenBroadcastIndex = s0.lastSeenBroadcastIndex ∨
           s'.lastSeenBroadcastIndex =
             advanceSeen st.broadcasts s0.lastSeenBroadcastIndex)) := by
  unfold processInput
  rcases hget : assocGet st.sessions sid with _ | session
  · exact ⟨⟨[], by simp⟩, fun h => h, fun _ k s' hg => ⟨s', hg, Or.inl rfl⟩⟩
  · dsimp only
    rcases hgame : session.currentGame with _ | g
    · dsimp only
      have hspec := processCommand_spec st sid session input now rand hget
      exact ⟨hspec.2.2.1, hspec.2.2.2.1, hspec.2.2.2.2⟩
    · dsimp only
      have hframe : ∀ X : Session,
          X.lastSeenBroadcastIndex = session.lastSeenBroadcastIndex →
          ∀ k s', assocGet (assocSet st.sessions sid X) k = some s' →
            ∃ s0, assocGet st.sessions k = some s0 ∧
              (s'.lastSeenBroadcastIndex = s0.lastSeenBroadcastIndex ∨
               s'.lastSeenBroadcastIndex =
                 advanceSeen st.broadcasts s0.lastSeenBroadcastIndex) := by
        intro X hX k s' hg
        by_cases hk : k = sid
        · rw [hk] at hg ⊢
          rw [assocGet_set_self] at hg
          refine ⟨session, hget, Or.inl ?_⟩
          rw [← Option.some_inj.mp hg, hX]
        · rw [assocGet_set_ne _ _ _ _ hk] at hg
          exact ⟨s', hg, Or.inl rfl⟩
      split
      · exact ⟨⟨[], by simp⟩,
          fun h => assocSet_keysNodup _ _ _ h,
          fun _ => hframe _ (quitGame_idx session)⟩
      · exact ⟨⟨[], by simp⟩,
          fun h => assocSet_keysNodup _ _ _ h,
          fun _ => hframe _ (handleGuess_idx session input)⟩

theorem createSession_shape (st : BBSState) (ct sid : String) :
    ∃ S : Session,
      createSession st ct sid = { st with sessions := assocSet st.sessions sid S } ∧
      S.lastSeenBroadcastIndex =
        (if 0 < st.broadcasts.length then (st.broadcasts.length : Int) - 1 else -1) := by
  refine ⟨_, rfl, ?_⟩
  rw [setDefaultBoard_idx]

theorem applyOp_preserves (st : BBSState) (op : BBSOp) (h : SessionsWF st) :
    SessionsWF (applyOp st op) ∧
    (∃ tail, (applyOp st op).broadcasts = st.broadcasts ++ tail) ∧
    ∀ k s', assocGet (applyOp st op).sessions k = some s' →
      (∃ s, assocGet st.sessions k = some s ∧
        s.lastSeenBroadcastIndex ≤ s'.lastSeenBroadcastIndex) ∨
      ((st.broadcasts.length : Int) - 1 ≤ s'.lastSeenBroadcastIndex) := by
  rcases op with ⟨ct, sid⟩ | ⟨sid, input, now, rand⟩ | sid
  · obtain ⟨S, hS, hidx⟩ := createSession_shape st ct sid
    have happ : applyOp st (BBSOp.create ct sid) = createSession st ct sid := rfl
    rw [happ, hS]
    refine ⟨⟨assocSet_keysNodup _ _ _ h.1, ?_⟩, ⟨[], by simp⟩, ?_⟩
    · intro p hp
      rcases assocSet_mem p hp with hm | hm
      · exact h.2 p hm
      · rw [hm]
        dsimp only
        rw [hidx]
        constructor
        · split <;> omega
        · split <;> omega
    · intro k s' hg
      by_cases hk : k = sid
      · rw [hk] at hg
        rw [assocGet_set_self] at hg
        right
        rw [← Option.some_inj.mp hg, hidx]
        split <;> omega
      · rw [assocGet_set_ne _ _ _ _ hk] at hg
        exact Or.inl ⟨s', hg, le_refl _⟩
  · have hspec := processInput_state_spec st sid input now rand
    obtain ⟨⟨tail, hbr⟩, hnd, hframe⟩ := hspec
    have happ : applyOp st (BBSOp.line sid input now rand) =
      (processInput st sid input now rand).1 := rfl
    rw [happ]
    refine ⟨⟨hnd h.1, ?_⟩, ⟨tail, hbr⟩, ?_⟩
    · intro p hp
      have hg : assocGet (processInput st sid input now rand).1.sessions p.1 = some p.2 := by
        rcases p with ⟨k, v⟩
        exact mem_assocGet (hnd h.1) hp
      obtain ⟨s0, hs0, hcase⟩ := hframe h.1 p.1 p.2 hg
      have hInv := h.2 (p.1, s0) (assocGet_mem hs0)
      have hlen : (st.broadcasts.length : Int) ≤
          ((processInput st sid input now rand).1.broadcasts.length : Int) := by
        rw [hbr]
        simp
      rcases hcase with he | he
      · rw [he]
        exact ⟨hInv.1, lt_of_lt_of_le hInv.2 hlen⟩
      · rw [he]
        refine ⟨advanceSeen_lb _ _ hInv.1, lt_of_lt_of_le (advanceSeen_ub _ _ hInv.2) hlen⟩
    · intro k s' hg
      obtain ⟨s0, hs0, hcase⟩ := hframe h.1 k s' hg
      rcases hcase with he | he
      · exact Or.inl ⟨s0, hs0, le_of_eq he.symm⟩
      · exact Or.inl ⟨s0, hs0, he ▸ advanceSeen_ge _ _⟩
  · have happ : applyOp st (BBSOp.drop sid) = (endSession st sid).1 := rfl
    rw [happ]
    unfold endSession
    rcases hget : assocGet st.sessions sid with _ | session
    · exact ⟨h, ⟨[], by simp⟩, fun k s' hg => Or.inl ⟨s', hg, le_refl _⟩⟩
    · dsimp only
      refine ⟨⟨?_, ?_⟩, ⟨[], by simp⟩, ?_⟩
      · exact h.1.sublist ((assocRemove_sublist _ _).map Prod.fst)
      · intro p hp
        exact h.2 p ((assocRemove_sublist _ _).mem hp)
      · intro k s' hg
        have := frame_of_sublist (assocRemove_sublist st.sessions sid) h.1 k s' hg
        exact Or.inl ⟨s', this, le_refl _⟩

theorem runOps_preserves (ops : List BBSOp) (st : BBSState) (h : SessionsWF st) :
    SessionsWF (runOps st ops) ∧
    (∃ tail, (runOps st ops).broadcasts = st.broadcasts ++ tail) ∧
    ∀ k s', assocGet (runOps st ops).sessions k = some s' →
      (∃ s, assocGet st.sessions k = some s ∧
        s.lastSeenBroadcastIndex ≤ s'.lastSeenBroadcastIndex) ∨
      ((st.broadcasts.length : Int) - 1 ≤ s'.lastSeenBroadcastIndex) := by
  induction ops generalizing st with
  | nil =>
    exact ⟨h, ⟨[], by simp [runOps]⟩,
      fun k s' hg => Or.inl ⟨s', hg, le_refl _⟩⟩
  | cons op rest ih =>
    obtain ⟨h1, ⟨t1, hb1⟩, hmono1⟩ := applyOp_preserves st op h
    obtain ⟨h2, ⟨t2, hb2⟩, hmono2⟩ := ih (applyOp st op) h1
    have hrun : runOps st (op :: rest) = runOps (applyOp st op) rest := rfl
    rw [hrun]
    refine ⟨h2, ⟨t1 ++ t2, by rw [hb2, hb1, List.append_assoc]⟩, ?_⟩
    intro k s' hg
    rcases hmono2 k s' hg with ⟨s2, hs2, hle2⟩ | hge2
    · rcases hmono1 k s2 hs2 with ⟨s0, hs0, hle1⟩ | hge1
      · exact Or.inl ⟨s0, hs0, le_trans hle1 hle2⟩
      · exact Or.inr (le_trans hge1 hle2)
    · right
      have : (st.broadcasts.length : Int) ≤ ((applyOp st op).broadcasts.length : Int) := by
        rw [hb1]
        simp
      omega

theorem stringData_append (a b : String) : (a ++ b).data = a.data ++ b.data := by
  rcases a with ⟨la⟩
  rcases b with ⟨lb⟩
  rfl

theorem listStarts_append_of (p a b : List Char) (h : listStarts p a = true) :
    listStarts p (a ++ b) = true := by
  induction p generalizing a with
  | nil => rfl
  | cons c cs ih =>
    rcases a with _ | ⟨d, ds⟩
    · exact absurd h (by simp [listStarts])
    · simp only [listStarts, Bool.and_eq_true] at h
      simp only [List.cons_append, listStarts, Bool.and_eq_true]
      exact ⟨h.1, ih ds h.2⟩

theorem processInput_no_game (st : BBSState) (sid input : String)
    (now rand : Nat) (s : Session)
    (hs : assocGet st.sessions sid = some s) (hg : s.currentGame = none) :
    processInput st sid input now rand = processCommand st sid s input now rand := by
  unfold processInput
  rw [hs]
  dsimp only
  rw [hg]

/-- Claim C1 (code bug): dispatching `SETCOLOR prompt red` for the logged-in
user upserts the `user_preferences` row and reports success, but the live
session copy the color resolver reads (`session.prefs["prompt"]`) is left at
the default — the command wrote the unused key `color_prompt` instead, so
`getAppliedColor` still answers the default color for the prompt. -/
theorem C1_setcolor_prompt_live_copy_bug :
    (processInput exState "s2" "SETCOLOR prompt red" 7 0).2 =
      "Color for prompt set to red.\n" ∧
    (processInput exState "s2" "SETCOLOR prompt red" 7 0).1.db.user_preferences =
      [⟨1, some "red", none, none⟩] ∧
    assocGet (processInput exState "s2" "SETCOLOR prompt red" 7 0).1.sessions "s2" =
      some { exAlice with
             prefs := defaultPrefs ++ [("color_prompt", "red")] } ∧
    assocGet ({ exAlice with
        prefs := defaultPrefs ++ [("color_prompt", "red")] } : Session).prefs
      "prompt" = some "bright_green" ∧
    getAppliedColor { exAlice with
        prefs := defaultPrefs ++ [("color_prompt", "red")] } "prompt" =
      getAppliedColor exAlice "prompt" := by
  refine ⟨by decide, by decide, by decide, by decide, by decide⟩

/-- Claim C3 (code bug): a sysop `UPLOADINFO` naming an existing
(area, filename) pair hits the UNIQUE violation, whose message is built as
`Filename '<name>' already exists in this area.` — but the catch block only
surfaces it verbatim when it starts with `Filename already exists`, which the
quoted filename makes impossible, so the caller sees the generic
database-error response and the conflict is never surfaced distinctly. -/
theorem C3_uploadinfo_conflict_message_bug :
    (processInput exState "s1" "UPLOADINFO 1 readme.txt" 8 0).2 =
      "Error uploading file information. A database error occurred.\n" ∧
    (processInput exState "s1" "UPLOADINFO 1 readme.txt" 8 0).1.db.file_listings =
      exDB.file_listings ∧
    jsStartsWith ("Filename " ++ sqm ++ "readme.txt" ++ sqm ++
      " already exists in this area.") "Filename already exists" = false ∧
    (processInput exState "s1" "UPLOADINFO 1 readme.txt" 8 0).2 ≠
      "Filename " ++ sqm ++ "readme.txt" ++ sqm ++ " already exists in this area." := by
  refine ⟨by decide, by decide, by decide, by decide⟩

/-- Claim C2, counterexample: with one unseen broadcast pending, a successful
LOGIN returns the welcome text first and the broadcast entries appended after
it, so the broadcast block is not a prefix of the response. -/
theorem C2_login_prepend_counterexample :
    assocGet exStateB.sessions "s3" = some exGuest ∧
    exGuest.currentGame = none ∧
    broadcastBlockText (exGuest.connectionType = "telnet") exStateB.broadcasts
      exGuest.lastSeenBroadcastIndex = "[BROADCAST 5] server restarting soon\n" ∧
    (processInput exStateB "s3" "LOGIN alice pw" 6 0).2 =
      ("Welcome, alice! Login successful. Current board: General\n" ++
        "You have 1 unread private message(s). Type LISTMAIL to read.\n") ++
        "[BROADCAST 5] server restarting soon\n" ∧
    ∀ rest, (processInput exStateB "s3" "LOGIN alice pw" 6 0).2 ≠
      "[BROADCAST 5] server restarting soon\n" ++ rest := by
  refine ⟨by decide, by decide, by decide, by decide, ?_⟩
  intro rest h
  have h1 : jsStartsWith (processInput exStateB "s3" "LOGIN alice pw" 6 0).2
      "[BROADCAST" = false := by decide
  rw [h] at h1
  have h2 : jsStartsWith ("[BROADCAST 5] server restarting soon\n" ++ rest)
      "[BROADCAST" = true := by
    unfold jsStartsWith
    rw [stringData_append]
    exact listStarts_append_of _ _ _ (by decide)
  rw [h1] at h2
  exact Bool.false_ne_true h2

/-- Claim C2 (amended): for every processed command of a session with no
active game, the unseen broadcast entries — formatted in queue (chronological)
order — are prepended to the response, except that a successful LOGIN appends
them after the login message instead; in both cases the session's last-seen
index advances to the tail of the queue read by the prepend block, and
replaying the block over that queue at the advanced index yields nothing, so
a second command does not repeat the entries. -/
theorem C2_broadcast_delivery (st : BBSState) (sid input : String)
    (now rand : Nat) (s : Session)
    (hs : assocGet st.sessions sid = some s) (hg : s.currentGame = none) :
    ((∃ rest, (processInput st sid input now rand).2 =
        broadcastBlockText (s.connectionType = "telnet") st.broadcasts
          s.lastSeenBroadcastIndex ++ rest) ∨
      ((parseCommand input).1 = "LOGIN" ∧
        ∃ rest, (processInput st sid input now rand).2 =
          rest ++ broadcastBlockText (s.connectionType = "telnet") st.broadcasts
            s.lastSeenBroadcastIndex)) ∧
    (∃ s', assocGet (processInput st sid input now rand).1.sessions sid = some s' ∧
      s'.lastSeenBroadcastIndex = advanceSeen st.broadcasts s.lastSeenBroadcastIndex) ∧
    broadcastBlockText (s.connectionType = "telnet") st.broadcasts
      (advanceSeen st.broadcasts s.lastSeenBroadcastIndex) = "" := by
  have hspec := processCommand_spec st sid s input now rand hs
  rw [processInput_no_game st sid input now rand s hs hg]
  exact ⟨hspec.1, hspec.2.1, broadcastBlockText_advance _ _ _⟩

/-- Witness for C2: the guest session of the test state, with one pending
broadcast, runs `WHO`. -/
theorem C2_broadcast_delivery_witness :
    (assocGet exStateB.sessions "s3" = some exGuest ∧
      exGuest.currentGame = none) ∧
    (((∃ rest, (processInput exStateB "s3" "WHO" 6 0).2 =
        broadcastBlockText (exGuest.connectionType = "telnet") exStateB.broadcasts
          exGuest.lastSeenBroadcastIndex ++ rest) ∨
      ((parseCommand "WHO").1 = "LOGIN" ∧
        ∃ rest, (processInput exStateB "s3" "WHO" 6 0).2 =
          rest ++ broadcastBlockText (exGuest.connectionType = "telnet")
            exStateB.broadcasts exGuest.lastSeenBroadcastIndex)) ∧
    (∃ s', assocGet (processInput exStateB "s3" "WHO" 6 0).1.sessions "s3" = some s' ∧
      s'.lastSeenBroadcastIndex =
        advanceSeen exStateB.broadcasts exGuest.lastSeenBroadcastIndex) ∧
    broadcastBlockText (exGuest.connectionType = "telnet") exStateB.broadcasts
      (advanceSeen exStateB.broadcasts exGuest.lastSeenBroadcastIndex) = "") :=
  ⟨⟨by decide, by decide⟩,
   C2_broadcast_delivery exStateB "s3" "WHO" 6 0 exGuest (by decide) (by decide)⟩

/-- Claim C5: across any sequence of operations — session creation, command
processing (which appends on BROADCAST), session teardown — every session
store stays well-formed (each broadcast-seen index lies in `[-1, queue
length)`, so it never exceeds the queue length) and no surviving session's
broadcast-seen index ever decreases. -/
theorem C5_broadcast_index_invariant (ops : List BBSOp) (st : BBSState)
    (h : SessionsWF st) :
    SessionsWF (runOps st ops) ∧
    ∀ k s s', assocGet st.sessions k = some s →
      assocGet (runOps st ops).sessions k = some s' →
      s.lastSeenBroadcastIndex ≤ s'.lastSeenBroadcastIndex := by
  obtain ⟨hwf, ⟨tail, hbr⟩, hmono⟩ := runOps_preserves ops st h
  refine ⟨hwf, ?_⟩
  intro k s s' hg hg'
  rcases hmono k s' hg' with ⟨s0, hs0, hle⟩ | hge
  · have he : s0 = s := Option.some_inj.mp (hs0.symm.trans hg)
    rw [← he]
    exact hle
  · have hInv := h.2 (k, s) (assocGet_mem hg)
    have : s.lastSeenBroadcastIndex < (st.broadcasts.length : Int) := hInv.2
    omega

/-- Witness for C5: a creation, a broadcast, and a command over the test
state. -/
theorem C5_broadcast_index_invariant_witness :
    SessionsWF exState ∧
    (SessionsWF (runOps exState
        [BBSOp.create "web" "s9",
         BBSOp.line "s1" "BROADCAST hello there" 4 0,
         BBSOp.line "s2" "LOOK" 5 0]) ∧
      ∀ k s s', assocGet exState.sessions k = some s →
        assocGet (runOps exState
          [BBSOp.create "web" "s9",
           BBSOp.line "s1" "BROADCAST hello there" 4 0,
           BBSOp.line "s2" "LOOK" 5 0]).sessions k = some s' →
        s.lastSeenBroadcastIndex ≤ s'.lastSeenBroadcastIndex) :=
  ⟨⟨by decide, by decide⟩,
   C5_broadcast_index_invariant
     [BBSOp.create "web" "s9",
      BBSOp.line "s1" "BROADCAST hello there" 4 0,
      BBSOp.line "s2" "LOOK" 5 0] exState ⟨by decide, by decide⟩⟩

/-- Claim C10, counterexample: with an active game, the line `quit` does not
parse as a number, yet it terminates the game and answers with the exit
message, not the invalid-number message, and the state changes. -/
theorem C10_nonnumeric_counterexample :
    jsParseInt "quit" = none ∧
    (processInput exStateG "s2" "quit" 9 0).2 = "Exited Number Guess game.\n" ∧
    (processInput exStateG "s2" "quit" 9 0).2 ≠
      "That" ++ sqm ++ "s not a valid number. Try again.\n" ∧
    assocGet (processInput exStateG "s2" "quit" 9 0).1.sessions "s2" =
      some { exAlice with currentGame := none } ∧
    (processInput exStateG "s2" "quit" 9 0).1 ≠ exStateG := by
  refine ⟨by decide, by decide, by decide, by decide, by decide⟩

/-- Claim C10 (amended): while a number-guess game is active, an input line
that does not parse as a number and is not one of the reserved quit/exit
tokens returns the invalid-number message and leaves the entire process state
(target, attempt counter, active game, store, queue) unchanged; only the
reserved tokens end the game without consuming an attempt. -/
theorem C10_invalid_guess_no_change (st : BBSState) (sid input : String)
    (now rand : Nat) (s : Session) (g : GameState)
    (hs : assocGet st.sessions sid = some s) (hg : s.currentGame = some g)
    (hp : jsParseInt input = none)
    (hq : jsTrim (jsToLower input) ≠ "quit")
    (he : jsTrim (jsToLower input) ≠ "exit") :
    processInput st sid input now rand =
      (st, "That" ++ sqm ++ "s not a valid number. Try again.\n") := by
  unfold processInput
  rw [hs]
  dsimp only
  rw [hg]
  dsimp only
  rw [if_neg (by simp [hq, he])]
  unfold handleGuess
  rw [hp]
  dsimp only
  rw [assocSet_eq_self st.sessions sid s hs]

/-- Witness for C10: the line `hello` during the test game. -/
theorem C10_invalid_guess_no_change_witness :
    (assocGet exStateG.sessions "s2" =
        some { exAlice with currentGame := some ⟨42, 0, 7⟩ } ∧
      jsParseInt "hello" = none ∧
      jsTrim (jsToLower "hello") ≠ "quit" ∧
      jsTrim (jsToLower "hello") ≠ "exit") ∧
    processInput exStateG "s2" "hello" 9 0 =
      (exStateG, "That" ++ sqm ++ "s not a valid number. Try again.\n") :=
  ⟨⟨by decide, by decide, by decide, by decide⟩,
   C10_invalid_guess_no_change exStateG "s2" "hello" 9 0
     { exAlice with currentGame := some ⟨42, 0, 7⟩ } ⟨42, 0, 7⟩
     (by decide) rfl (by decide) (by decide) (by decide)⟩

theorem dispatch_eq_KICK (st : BBSState) (c : Ctx) (h : c.cmd = "KICK") :
    dispatch st c = cmdKICK st c := by
  unfold dispatch
  rw [h]
  rfl

theorem dispatch_eq_READMAIL (st : BBSState) (c : Ctx) (h : c.cmd = "READMAIL") :
    dispatch st c = cmdREADMAIL st c := by
  unfold dispatch
  rw [h]
  rfl

theorem dispatch_eq_JOINBOARD (st : BBSState) (c : Ctx) (h : c.cmd = "JOINBOARD") :
    dispatch st c = cmdJOINBOARD st c := by
  unfold dispatch
  rw [h]
  rfl

theorem dispatch_eq_SAY (st : BBSState) (c : Ctx) (h : c.cmd = "SAY") :
    dispatch st c = cmdSAY st c := by
  unfold dispatch
  rw [h]
  rfl

theorem dispatch_eq_BROADCAST (st : BBSState) (c : Ctx) (h : c.cmd = "BROADCAST") :
    dispatch st c = cmdBROADCAST st c := by
  unfold dispatch
  rw [h]
  rfl

theorem dispatch_eq_EDITMESSAGE (st : BBSState) (c : Ctx) (h : c.cmd = "EDITMESSAGE") :
    dispatch st c = cmdEDITMESSAGE st c := by
  unfold dispatch
  rw [h]
  rfl

theorem cmdKICK_self (st : BBSState) (c : Ctx) (target : String)
    (q : String × Session)
    (hsys : isSysOp c.session = true)
    (hargs : c.args = [target])
    (htne : jsTrim target ≠ "")
    (hfind : st.sessions.find?
      (fun p => p.2.username = jsTrim target && p.2.loggedIn) = some q)
    (hq : q.1 = c.sid) :
    cmdKICK st c = (st, DOut.normal "You cannot kick yourself.\n") := by
  unfold cmdKICK
  rw [if_neg (by rw [hsys]; decide)]
  rw [hargs]
  try dsimp only
  rw [if_neg htne]
  try dsimp only
  rw [kickLoop_self c.sid (jsTrim target) st.sessions q hfind hq]

theorem processCommand_of_normal (st : BBSState) (sid : String) (s : Session)
    (input : String) (now rand : Nat) (st2 : BBSState) (resp : String)
    (hd : dispatch (procSt1 st sid s) (procCtx st sid s input now rand) =
      (st2, DOut.normal resp))
    (hguard : (decide ((procCtx st sid s input now rand).cmd = "LOGIN") &&
      jsStartsWith resp "Welcome,") = false) :
    processCommand st sid s input now rand =
      (st2, broadcastBlockText (s.connectionType = "telnet") st.broadcasts
        s.lastSeenBroadcastIndex ++ resp) := by
  unfold processCommand
  dsimp only
  rw [hd]
  dsimp only
  rw [if_neg (by simp [hguard])]
  rfl

/-- Claim C6: a KICK can never remove the issuing session's own record. First,
no `processInput` call ever removes the caller's record; second, when the
first logged-in session carrying the target username is the caller's own, the
response is the refusal message and the session store is exactly the one the
prepend block left (no deletion). -/
theorem C6_kick_never_self :
    (∀ (st : BBSState) (sid input : String) (now rand : Nat) (s : Session),
      assocGet st.sessions sid = some s →
      ∃ s', assocGet (processInput st sid input now rand).1.sessions sid = some s') ∧
    (∀ (st : BBSState) (sid input : String) (now rand : Nat) (s : Session)
      (target : String) (q : String × Session),
      assocGet st.sessions sid = some s → s.currentGame = none →
      parseCommand input = ("KICK", [target]) →
      isSysOp s = true → jsTrim target ≠ "" →
      (assocSet st.sessions sid (advSession st.broadcasts s)).find?
          (fun p => p.2.username = jsTrim target && p.2.loggedIn) = some q →
      q.1 = sid →
      (processInput st sid input now rand).1.sessions =
        assocSet st.sessions sid (advSession st.broadcasts s) ∧
      (processInput st sid input now rand).2 =
        broadcastBlockText (s.connectionType = "telnet") st.broadcasts
          s.lastSeenBroadcastIndex ++ "You cannot kick yourself.\n") := by
  constructor
  · intro st sid input now rand s hs
    unfold processInput
    rw [hs]
    dsimp only
    rcases hgame : s.currentGame with _ | g
    · dsimp only
      obtain ⟨s', hs', _⟩ := (processCommand_spec st sid s input now rand hs).2.1
      exact ⟨s', hs'⟩
    · dsimp only
      split
      · exact ⟨_, assocGet_set_self _ _ _⟩
      · exact ⟨_, assocGet_set_self _ _ _⟩
  · intro st sid input now rand s target q hs hg hp hsys htne hfind hq
    rw [processInput_no_game st sid input now rand s hs hg]
    have hcmd : (procCtx st sid s input now rand).cmd = "KICK" := by
      show (parseCommand input).1 = "KICK"
      rw [hp]
    have hargs : (procCtx st sid s input now rand).args = [target] := by
      show (parseCommand input).2 = [target]
      rw [hp]
    have hd : dispatch (procSt1 st sid s) (procCtx st sid s input now rand) =
        (procSt1 st sid s, DOut.normal "You cannot kick yourself.\n") := by
      rw [dispatch_eq_KICK _ _ hcmd]
      exact cmdKICK_self (procSt1 st sid s) (procCtx st sid s input now rand)
        target q hsys hargs htne hfind hq
    rw [processCommand_of_normal st sid s input now rand (procSt1 st sid s)
      "You cannot kick yourself.\n" hd (by rw [hcmd]; decide)]
    exact ⟨rfl, rfl⟩

/-- Witness for C6: in the test state the sysop session kicks its own
username. -/
theorem C6_kick_never_self_witness :
    (assocGet exState.sessions "s1" = some exSys ∧
      exSys.currentGame = none ∧
      parseCommand "KICK sys" = ("KICK", ["sys"]) ∧
      isSysOp exSys = true ∧
      jsTrim "sys" ≠ "" ∧
      (assocSet exState.sessions "s1" (advSession exState.broadcasts exSys)).find?
          (fun p => p.2.username = jsTrim "sys" && p.2.loggedIn) =
        some ("s1", advSession exState.broadcasts exSys)) ∧
    ((processInput exState "s1" "KICK sys" 9 0).1.sessions =
      assocSet exState.sessions "s1" (advSession exState.broadcasts exSys) ∧
    (processInput exState "s1" "KICK sys" 9 0).2 =
      broadcastBlockText (exSys.connectionType = "telnet") exState.broadcasts
        exSys.lastSeenBroadcastIndex ++ "You cannot kick yourself.\n") :=
  ⟨⟨by decide, by decide, by decide, by decide, by decide, by decide⟩,
   C6_kick_never_self.2 exState "s1" "KICK sys" 9 0 exSys "sys"
     ("s1", advSession exState.broadcasts exSys)
     (by decide) (by decide) (by decide) (by decide) (by decide)
     (by decide) rfl⟩

theorem stringEmpty_append (t : String) : "" ++ t = t := by
  rcases t with ⟨l⟩
  rfl

theorem rmf_mark_aux (users : List UserRow) (uid : Nat) (mid : Int) :
    ∀ (l : List PMRow) (m : PMRow) (sn : String),
      ((l.filterMap (fun mm => (users.find? (fun u => u.id = mm.sender_id)).map
          (fun u => (mm, u.username)))).find?
        (fun p => (p.1.id : Int) = mid && p.1.recipient_id = uid)) = some (m, sn) →
      (((l.map (fun r => if (r.id : Int) = mid then { r with is_read := true }
          else r)).filterMap
          (fun mm => (users.find? (fun u => u.id = mm.sender_id)).map
            (fun u => (mm, u.username)))).find?
        (fun p => (p.1.id : Int) = mid && p.1.recipient_id = uid)) =
        some ({ m with is_read := true }, sn) := by
  intro l
  induction l with
  | nil =>
    intro m sn h
    simp [List.filterMap] at h
  | cons a t ih =>
    intro m sn h
    rw [List.filterMap_cons] at h
    rw [List.map_cons, List.filterMap_cons]
    have hsend : (if (a.id : Int) = mid then { a with is_read := true }
        else a).sender_id = a.sender_id := by
      split <;> rfl
    have hid : (if (a.id : Int) = mid then { a with is_read := true }
        else a).id = a.id := by
      split <;> rfl
    have hrec : (if (a.id : Int) = mid then { a with is_read := true }
        else a).recipient_id = a.recipient_id := by
      split <;> rfl
    rw [hsend]
    rcases hu : users.find? (fun u => u.id = a.sender_id) with _ | u
    · rw [hu] at h ⊢
      dsimp only [Option.map] at h ⊢
      exact ih m sn h
    · rw [hu] at h ⊢
      dsimp only [Option.map] at h ⊢
      by_cases hp : ((a.id : Int) = mid ∧ a.recipient_id = uid)
      · rw [List.find?_cons_of_pos _ (by simpa using hp)] at h
        have hma : (a, u.username) = (m, sn) := Option.some_inj.mp h
        have ha : a = m := (Prod.ext_iff.mp hma).1
        have hsn : u.username = sn := (Prod.ext_iff.mp hma).2
        have hfa : (if (a.id : Int) = mid then { a with is_read := true }
            else a) = { a with is_read := true } := by
          rw [if_pos hp.1]
        subst ha
        subst hsn
        rw [List.find?_cons_of_pos _ (by
          simp only [hid, hrec]
          simpa using hp)]
        rw [hfa]
      · rw [List.find?_cons_of_neg _ (by simpa using hp)] at h
        rw [List.find?_cons_of_neg _ (by
          simp only [hid, hrec]
          simpa using hp)]
        exact ih m sn h

theorem readMailFind_mark (db : DB) (uid : Nat) (mid : Int) (m : PMRow)
    (sn : String)
    (h : readMailFind db uid mid = some (m, sn)) :
    readMailFind (markRead db mid) uid mid =
    some ({ m with is_read := true }, sn) := by
  exact rmf_mark_aux db.users uid mid db.private_messages m sn h

theorem cmdREADMAIL_found (st : BBSState) (c : Ctx) (uid : Nat) (arg : String)
    (mid : Int) (m : PMRow) (senderName : String)
    (hlog : loggedInUser c.session = some uid)
    (hargs : c.args = [arg])
    (hparse : jsParseInt arg = some mid)
    (hfind : readMailFind st.db uid mid = some (m, senderName)) :
    cmdREADMAIL st c =
      ({ st with db := if m.is_read then st.db else markRead st.db mid },
       DOut.normal ("From: " ++ senderName ++ "\nSubject: " ++ m.subject ++
         "\nDate: " ++ fmtDateTime m.timestamp ++ "\n\n" ++ m.body ++ "\n")) := by
  unfold cmdREADMAIL
  rw [hlog]
  try dsimp only
  rw [hargs]
  try dsimp only
  rw [hparse]
  try dsimp only
  rw [hfind]

/-- Claim C7: READMAIL is idempotent on the read flag — the first read of an
unread message flips `is_read` to true for that id and renders the message;
an immediate second READMAIL of the same id succeeds with the same rendered
message (no error) and leaves the store untouched. -/
theorem C7_readmail_idempotent (st : BBSState) (sid input : String)
    (now now2 rand rand2 : Nat) (s : Session) (uid : Nat) (arg : String)
    (mid : Int) (m : PMRow) (senderName : String)
    (hs : assocGet st.sessions sid = some s) (hg : s.currentGame = none)
    (hp : parseCommand input = ("READMAIL", [arg]))
    (hlog : loggedInUser s = some uid)
    (hparse : jsParseInt arg = some mid)
    (hfind : readMailFind st.db uid mid = some (m, senderName))
    (hunread : m.is_read = false) :
    (∀ p ∈ (processInput st sid input now rand).1.db.private_messages,
      (p.id : Int) = mid → p.is_read = true) ∧
    (processInput st sid input now rand).2 =
      broadcastBlockText (s.connectionType = "telnet") st.broadcasts
        s.lastSeenBroadcastIndex ++
      ("From: " ++ senderName ++ "\nSubject: " ++ m.subject ++
        "\nDate: " ++ fmtDateTime m.timestamp ++ "\n\n" ++ m.body ++ "\n") ∧
    (processInput (processInput st sid input now rand).1 sid input now2 rand2).1.db =
      (processInput st sid input now rand).1.db ∧
    (processInput (processInput st sid input now rand).1 sid input now2 rand2).2 =
      "From: " ++ senderName ++ "\nSubject: " ++ m.subject ++
        "\nDate: " ++ fmtDateTime m.timestamp ++ "\n\n" ++ m.body ++ "\n" := by
  have hcmd : (procCtx st sid s input now rand).cmd = "READMAIL" := by
    show (parseCommand input).1 = "READMAIL"
    rw [hp]
  have hargs : (procCtx st sid s input now rand).args = [arg] := by
    show (parseCommand input).2 = [arg]
    rw [hp]
  have hd : dispatch (procSt1 st sid s) (procCtx st sid s input now rand) =
      ({ procSt1 st sid s with db := markRead st.db mid },
       DOut.normal ("From: " ++ senderName ++ "\nSubject: " ++ m.subject ++
         "\nDate: " ++ fmtDateTime m.timestamp ++ "\n\n" ++ m.body ++ "\n")) := by
    rw [dispatch_eq_READMAIL _ _ hcmd]
    rw [cmdREADMAIL_found (procSt1 st sid s) (procCtx st sid s input now rand)
      uid arg mid m senderName hlog hargs hparse hfind]
    rw [hunread]
    rfl
  have h1 : processInput st sid input now rand =
      ({ procSt1 st sid s with db := markRead st.db mid },
       broadcastBlockText (s.connectionType = "telnet") st.broadcasts
         s.lastSeenBroadcastIndex ++
       ("From: " ++ senderName ++ "\nSubject: " ++ m.subject ++
         "\nDate: " ++ fmtDateTime m.timestamp ++ "\n\n" ++ m.body ++ "\n")) := by
    rw [processInput_no_game st sid input now rand s hs hg]
    rw [processCommand_of_normal st sid s input now rand _ _ hd (by
      rw [hcmd]
      have hf : (decide (("READMAIL" : String) = "LOGIN")) = false := by decide
      rw [hf]
      exact Bool.false_and _)]
  -- the state after the first call, named
  have hs2 : assocGet (processInput st sid input now rand).1.sessions sid =
      some (advSession st.broadcasts s) := by
    rw [h1]
    exact assocGet_set_self _ _ _
  have hg2 : (advSession st.broadcasts s).currentGame = none := hg
  have hlog2 : loggedInUser (advSession st.broadcasts s) = some uid := hlog
  have hfind2 : readMailFind (processInput st sid input now rand).1.db uid mid =
      some ({ m with is_read := true }, senderName) := by
    rw [h1]
    exact readMailFind_mark st.db uid mid m senderName hfind
  have hcmd2 : (procCtx (processInput st sid input now rand).1 sid
      (advSession st.broadcasts s) input now2 rand2).cmd = "READMAIL" := by
    show (parseCommand input).1 = "READMAIL"
    rw [hp]
  have hargs2 : (procCtx (processInput st sid input now rand).1 sid
      (advSession st.broadcasts s) input now2 rand2).args = [arg] := by
    show (parseCommand input).2 = [arg]
    rw [hp]
  have hd2 : dispatch
      (procSt1 (processInput st sid input now rand).1 sid (advSession st.broadcasts s))
      (procCtx (processInput st sid input now rand).1 sid (advSession st.broadcasts s)
        input now2 rand2) =
      (procSt1 (processInput st sid input now rand).1 sid (advSession st.broadcasts s),
       DOut.normal ("From: " ++ senderName ++ "\nSubject: " ++ m.subject ++
         "\nDate: " ++ fmtDateTime m.timestamp ++ "\n\n" ++ m.body ++ "\n")) := by
    rw [dispatch_eq_READMAIL _ _ hcmd2]
    rw [cmdREADMAIL_found
      (procSt1 (processInput st sid input now rand).1 sid (advSession st.broadcasts s))
      (procCtx (processInput st sid input now rand).1 sid (advSession st.broadcasts s)
        input now2 rand2)
      uid arg mid ({ m with is_read := true })
      senderName hlog2 hargs2 hparse hfind2]
    rfl
  have h2 : processInput (processInput st sid input now rand).1 sid input now2 rand2 =
      (procSt1 (processInput st sid input now rand).1 sid (advSession st.broadcasts s),
       broadcastBlockText ((advSession st.broadcasts s).connectionType = "telnet")
         (processInput st sid input now rand).1.broadcasts
         (advSession st.broadcasts s).lastSeenBroadcastIndex ++
       ("From: " ++ senderName ++ "\nSubject: " ++ m.subject ++
         "\nDate: " ++ fmtDateTime m.timestamp ++ "\n\n" ++ m.body ++ "\n")) := by
    rw [processInput_no_game (processInput st sid input now rand).1 sid input
      now2 rand2 (advSession st.broadcasts s) hs2 hg2]
    rw [processCommand_of_normal _ _ _ _ _ _ _ _ hd2 (by
      rw [hcmd2]
      have hf : (decide (("READMAIL" : String) = "LOGIN")) = false := by decide
      rw [hf]
      exact Bool.false_and _)]
  have hbb2 : broadcastBlockText ((advSession st.broadcasts s).connectionType = "telnet")
      (processInput st sid input now rand).1.broadcasts
      (advSession st.broadcasts s).lastSeenBroadcastIndex = "" := by
    rw [h1]
    exact broadcastBlockText_advance _ st.broadcasts s.lastSeenBroadcastIndex
  refine ⟨?_, ?_, ?_, ?_⟩
  · intro p hp2 hpid
    rw [h1] at hp2
    dsimp only [markRead] at hp2
    rcases List.mem_map.mp hp2 with ⟨q, _, hq⟩
    by_cases hqid : (q.id : Int) = mid
    · rw [← hq, if_pos hqid]
    · rw [← hq, if_neg hqid] at hpid ⊢
      exact absurd hpid hqid
  · rw [h1]
  · rw [h2, h1]
    rfl
  · rw [h2, hbb2, stringEmpty_append]

theorem C7_readmail_idempotent_witness :
    (assocGet exState.sessions "s2" = some exAlice ∧
      exAlice.currentGame = none ∧
      parseCommand "READMAIL 1" = ("READMAIL", ["1"]) ∧
      loggedInUser exAlice = some 1 ∧
      jsParseInt "1" = some 1 ∧
      readMailFind exState.db 1 1 =
        some (⟨1, 2, 1, "hi", "hello there", 3, false⟩, "sys") ∧
      (⟨1, 2, 1, "hi", "hello there", 3, false⟩ : PMRow).is_read = false) ∧
    ((∀ p ∈ (processInput exState "s2" "READMAIL 1" 9 0).1.db.private_messages,
        (p.id : Int) = 1 → p.is_read = true) ∧
      (processInput exState "s2" "READMAIL 1" 9 0).2 =
        broadcastBlockText (exAlice.connectionType = "telnet") exState.broadcasts
          exAlice.lastSeenBroadcastIndex ++
        ("From: " ++ "sys" ++ "\nSubject: " ++ "hi" ++ "\nDate: " ++
          fmtDateTime 3 ++ "\n\n" ++ "hello there" ++ "\n") ∧
      (processInput (processInput exState "s2" "READMAIL 1" 9 0).1 "s2"
          "READMAIL 1" 10 0).1.db =
        (processInput exState "s2" "READMAIL 1" 9 0).1.db ∧
      (processInput (processInput exState "s2" "READMAIL 1" 9 0).1 "s2"
          "READMAIL 1" 10 0).2 =
        "From: " ++ "sys" ++ "\nSubject: " ++ "hi" ++ "\nDate: " ++
          fmtDateTime 3 ++ "\n\n" ++ "hello there" ++ "\n") :=
  ⟨⟨by decide, by decide, by decide, by decide, by decide, by decide, by decide⟩,
   C7_readmail_idempotent exState "s2" "READMAIL 1" 9 10 0 0 exAlice 1 "1" 1
     ⟨1, 2, 1, "hi", "hello there", 3, false⟩ "sys"
     (by decide) (by decide) (by decide) (by decide) (by decide) (by decide)
     (by decide)⟩

theorem processInput_game_quit (st : BBSState) (sid input : String)
    (now rand : Nat) (s : Session) (g : GameState)
    (hs : assocGet st.sessions sid = some s) (hg : s.currentGame = some g)
    (hqe : jsTrim (jsToLower input) = "quit" ∨ jsTrim (jsToLower input) = "exit") :
    processInput st sid input now rand =
      ({ st with sessions :=
          assocSet st.sessions sid { s with currentGame := none } },
       "Exited Number Guess game.\n") := by
  unfold processInput
  rw [hs]
  dsimp only
  rw [hg]
  dsimp only
  rw [if_pos (by rcases hqe with h | h <;> simp [h])]
  have hq : quitGame s = ({ s with currentGame := none },
      "Exited Number Guess game.\n") := by
    unfold quitGame
    rw [hg]
  rw [hq]

theorem processInput_game_guess (st : BBSState) (sid input : String)
    (now rand : Nat) (s : Session) (g : GameState)
    (hs : assocGet st.sessions sid = some s) (hg : s.currentGame = some g)
    (hq : jsTrim (jsToLower input) ≠ "quit")
    (he : jsTrim (jsToLower input) ≠ "exit") :
    processInput st sid input now rand =
      ({ st with sessions := assocSet st.sessions sid (handleGuess s input).1 },
       (handleGuess s input).2) := by
  unfold processInput
  rw [hs]
  dsimp only
  rw [hg]
  dsimp only
  rw [if_neg (by simp [hq, he])]

theorem handleGuess_wrong (s : Session) (gg : String) (t a : Nat) (v : Int)
    (hg : s.currentGame = some ⟨t, a, 7⟩)
    (hv : jsParseInt gg = some v) (hvne : v ≠ (t : Int)) (ha : a + 1 < 7) :
    (handleGuess s gg).1 = { s with currentGame := some ⟨t, a + 1, 7⟩ } := by
  unfold handleGuess
  rw [hv]
  dsimp only
  rw [hg]
  dsimp only
  rw [if_neg hvne]
  rw [if_neg (by omega)]
  split <;> rfl

theorem handleGuess_exhaust (s : Session) (gg : String) (t : Nat) (v : Int)
    (hg : s.currentGame = some ⟨t, 6, 7⟩)
    (hv : jsParseInt gg = some v) (hvne : v ≠ (t : Int)) :
    handleGuess s gg =
      ({ s with currentGame := none },
       "Sorry, you" ++ sqm ++ "ve run out of attempts! The number was " ++
         toString t ++ ".\n") := by
  unfold handleGuess
  rw [hv]
  dsimp only
  rw [hg]
  dsimp only
  rw [if_neg hvne]
  rw [if_pos (by omega)]

theorem handleGuess_correct (s : Session) (gg : String) (t a mx : Nat)
    (hg : s.currentGame = some ⟨t, a, mx⟩)
    (hv : jsParseInt gg = some (t : Int)) :
    handleGuess s gg =
      ({ s with currentGame := none },
       "Correct! You guessed the number " ++ toString t ++ " in " ++
         toString (a + 1) ++ " attempt(s).\n") := by
  unfold handleGuess
  rw [hv]
  dsimp only
  rw [hg]
  dsimp only
  rw [if_pos rfl]

theorem runGuesses_exhaust (sid : String) (now rand : Nat) :
    ∀ (gs : List String) (st : BBSState) (s : Session) (t a : Nat),
      assocGet st.sessions sid = some s →
      s.currentGame = some ⟨t, a, 7⟩ →
      gs.length + a = 7 → gs ≠ [] →
      (∀ g ∈ gs, jsTrim (jsToLower g) ≠ "quit" ∧ jsTrim (jsToLower g) ≠ "exit" ∧
        (jsParseInt g).isSome = true ∧ jsParseInt g ≠ some (t : Int)) →
      (runGuesses sid now rand st gs).2 =
        "Sorry, you" ++ sqm ++ "ve run out of attempts! The number was " ++
          toString t ++ ".\n" ∧
      assocGet (runGuesses sid now rand st gs).1.sessions sid =
        some { s with currentGame := none } := by
  intro gs
  induction gs with
  | nil =>
    intro st s t a _ _ _ hne _
    exact absurd rfl hne
  | cons gg tl ih =>
    intro st s t a hs hg hlen _ hall
    obtain ⟨hq, he, hsome, hvne⟩ := hall gg (List.mem_cons_self _ _)
    rcases hvp : jsParseInt gg with _ | v
    · rw [hvp] at hsome
      exact absurd hsome (by decide)
    have hvne2 : v ≠ (t : Int) := by
      intro hv
      rw [hvp, hv] at hvne
      exact hvne rfl
    by_cases htl : tl = []
    · subst htl
      have ha : a = 6 := by
        simp only [List.length_cons, List.length_nil] at hlen
        omega
      subst ha
      have hr : runGuesses sid now rand st [gg] =
          processInput st sid gg now rand := by
        unfold runGuesses
        rfl
      rw [hr]
      rw [processInput_game_guess st sid gg now rand s _ hs hg hq he]
      rw [handleGuess_exhaust s gg t v hg hvp hvne2]
      exact ⟨rfl, assocGet_set_self _ _ _⟩
    · have hstep : runGuesses sid now rand st (gg :: tl) =
          runGuesses sid now rand (processInput st sid gg now rand).1 tl := by
        conv_lhs => unfold runGuesses
        rw [if_neg (by simp [htl])]
      have ha7 : a + 1 < 7 := by
        have h1 : 1 ≤ tl.length := List.length_pos.mpr htl
        simp only [List.length_cons] at hlen
        omega
      have hs2 : assocGet (processInput st sid gg now rand).1.sessions sid =
          some { s with currentGame := some ⟨t, a + 1, 7⟩ } := by
        rw [processInput_game_guess st sid gg now rand s _ hs hg hq he]
        dsimp only
        rw [handleGuess_wrong s gg t a v hg hvp hvne2 ha7]
        exact assocGet_set_self _ _ _
      have hlen2 : tl.length + (a + 1) = 7 := by
        simp only [List.length_cons] at hlen
        omega
      have hrec := ih (processInput st sid gg now rand).1
        { s with currentGame := some ⟨t, a + 1, 7⟩ } t (a + 1) hs2 rfl hlen2 htl
        (fun x hx => hall x (List.mem_cons_of_mem _ hx))
      rw [hstep]
      exact hrec

/-- Claim C8: game lifecycle. With an active number-guess game: (1) a line
whose trimmed lower-case form is `quit` or `exit` always ends the game with
the exit message; (2) a line parsing to the target number ends the game with
the success message; (3) starting from a fresh game (0 of 7 attempts used),
any 7 lines that each parse to a number different from the target produce a
final response revealing the target, clear the game state, and the session's
next input line of any kind is dispatched as a normal command. -/
theorem C8_game_lifecycle :
    (∀ (st : BBSState) (sid input : String) (now rand : Nat) (s : Session)
       (g : GameState),
       assocGet st.sessions sid = some s → s.currentGame = some g →
       (jsTrim (jsToLower input) = "quit" ∨ jsTrim (jsToLower input) = "exit") →
       processInput st sid input now rand =
         ({ st with sessions :=
             assocSet st.sessions sid { s with currentGame := none } },
          "Exited Number Guess game.\n")) ∧
    (∀ (st : BBSState) (sid input : String) (now rand : Nat) (s : Session)
       (t a mx : Nat),
       assocGet st.sessions sid = some s → s.currentGame = some ⟨t, a, mx⟩ →
       jsTrim (jsToLower input) ≠ "quit" → jsTrim (jsToLower input) ≠ "exit" →
       jsParseInt input = some (t : Int) →
       processInput st sid input now rand =
         ({ st with sessions :=
             assocSet st.sessions sid { s with currentGame := none } },
          "Correct! You guessed the number " ++ toString t ++ " in " ++
            toString (a + 1) ++ " attempt(s).\n")) ∧
    (∀ (st : BBSState) (sid : String) (now rand : Nat) (s : Session) (t : Nat)
       (gs : List String),
       assocGet st.sessions sid = some s → s.currentGame = some ⟨t, 0, 7⟩ →
       gs.length = 7 →
       (∀ g ∈ gs, jsTrim (jsToLower g) ≠ "quit" ∧ jsTrim (jsToLower g) ≠ "exit" ∧
         (jsParseInt g).isSome = true ∧ jsParseInt g ≠ some (t : Int)) →
       (runGuesses sid now rand st gs).2 =
         "Sorry, you" ++ sqm ++ "ve run out of attempts! The number was " ++
           toString t ++ ".\n" ∧
       assocGet (runGuesses sid now rand st gs).1.sessions sid =
         some { s with currentGame := none } ∧
       ∀ (input2 : String) (now2 rand2 : Nat),
         processInput (runGuesses sid now rand st gs).1 sid input2 now2 rand2 =
           processCommand (runGuesses sid now rand st gs).1 sid
             { s with currentGame := none } input2 now2 rand2) := by
  refine ⟨?_, ?_, ?_⟩
  · intro st sid input now rand s g hs hg hqe
    exact processInput_game_quit st sid input now rand s g hs hg hqe
  · intro st sid input now rand s t a mx hs hg hq he hv
    rw [processInput_game_guess st sid input now rand s _ hs hg hq he]
    rw [handleGuess_correct s input t a mx hg hv]
  · intro st sid now rand s t gs hs hg hlen hall
    have hmain := runGuesses_exhaust sid now rand gs st s t 0
      hs hg (by omega) (by intro h; rw [h] at hlen; exact absurd hlen (by decide))
      hall
    refine ⟨hmain.1, hmain.2, ?_⟩
    intro input2 now2 rand2
    exact processInput_no_game _ _ _ _ _ _ hmain.2 rfl

theorem C8_game_lifecycle_witness :
    (assocGet exStateG.sessions "s2" =
        some { exAlice with currentGame := some ⟨42, 0, 7⟩ } ∧
      ({ exAlice with currentGame := some ⟨42, 0, 7⟩ } : Session).currentGame =
        some ⟨42, 0, 7⟩ ∧
      (["1", "2", "3", "4", "5", "6", "7"] : List String).length = 7 ∧
      (∀ g ∈ (["1", "2", "3", "4", "5", "6", "7"] : List String),
        jsTrim (jsToLower g) ≠ "quit" ∧ jsTrim (jsToLower g) ≠ "exit" ∧
        (jsParseInt g).isSome = true ∧ jsParseInt g ≠ some (42 : Int))) ∧
    ((runGuesses "s2" 9 0 exStateG ["1", "2", "3", "4", "5", "6", "7"]).2 =
        "Sorry, you" ++ sqm ++ "ve run out of attempts! The number was " ++
          toString (42 : Nat) ++ ".\n" ∧
      assocGet (runGuesses "s2" 9 0 exStateG
          ["1", "2", "3", "4", "5", "6", "7"]).1.sessions "s2" =
        some { exAlice with currentGame := none } ∧
      processInput (runGuesses "s2" 9 0 exStateG
          ["1", "2", "3", "4", "5", "6", "7"]).1 "s2" "HELP" 10 0 =
        processCommand (runGuesses "s2" 9 0 exStateG
          ["1", "2", "3", "4", "5", "6", "7"]).1 "s2"
          { exAlice with currentGame := none } "HELP" 10 0) :=
  ⟨⟨by decide, by decide, by decide, by decide⟩,
   (C8_game_lifecycle.2.2 exStateG "s2" 9 0
      { exAlice with currentGame := some ⟨42, 0, 7⟩ } 42
      ["1", "2", "3", "4", "5", "6", "7"]
      (by decide) rfl (by decide) (by decide)).1,
   (C8_game_lifecycle.2.2 exStateG "s2" 9 0
      { exAlice with currentGame := some ⟨42, 0, 7⟩ } 42
      ["1", "2", "3", "4", "5", "6", "7"]
      (by decide) rfl (by decide) (by decide)).2.1,
   (C8_game_lifecycle.2.2 exStateG "s2" 9 0
      { exAlice with currentGame := some ⟨42, 0, 7⟩ } 42
      ["1", "2", "3", "4", "5", "6", "7"]
      (by decide) rfl (by decide) (by decide)).2.2 "HELP" 10 0⟩

theorem mem_insDescNat {α : Type} (key : α → Nat) (x y : α) :
    ∀ l : List α, y ∈ insDescNat key x l ↔ y = x ∨ y ∈ l := by
  intro l
  induction l with
  | nil => simp [insDescNat]
  | cons a tl ih =>
    unfold insDescNat
    split
    · simp only [List.mem_cons, ih]
      tauto
    · simp only [List.mem_cons]

theorem mem_sortDescNat {α : Type} (key : α → Nat) (y : α) :
    ∀ l : List α, y ∈ sortDescNat key l ↔ y ∈ l := by
  intro l
  induction l with
  | nil => simp [sortDescNat]
  | cons a tl ih =>
    unfold sortDescNat
    rw [mem_insDescNat]
    simp only [List.mem_cons, ih]

theorem pairwise_insDescNat {α : Type} (key : α → Nat) (x : α) :
    ∀ l : List α, List.Pairwise (fun a b => key b ≤ key a) l →
      List.Pairwise (fun a b => key b ≤ key a) (insDescNat key x l) := by
  intro l
  induction l with
  | nil =>
    intro _
    simp [insDescNat]
  | cons a tl ih =>
    intro h
    rcases List.pairwise_cons.mp h with ⟨ha, htl⟩
    unfold insDescNat
    split
    · refine List.pairwise_cons.mpr ⟨?_, ih htl⟩
      intro y hy
      rcases (mem_insDescNat key x y tl).mp hy with hyx | hyt
      · subst hyx
        assumption
      · exact ha y hyt
    · refine List.pairwise_cons.mpr ⟨?_, h⟩
      intro y hy
      rcases List.mem_cons.mp hy with hya | hyt
      · subst hya
        omega
      · have h1 := ha y hyt
        omega

theorem pairwise_sortDescNat {α : Type} (key : α → Nat) :
    ∀ l : List α,
      List.Pairwise (fun a b => key b ≤ key a) (sortDescNat key l) := by
  intro l
  induction l with
  | nil => simp [sortDescNat]
  | cons a tl ih =>
    unfold sortDescNat
    exact pairwise_insDescNat key a _ ih

theorem lookJoin_board (db : DB) (bid : Nat) :
    ∀ p ∈ lookJoin db bid, p.1.board_id = bid := by
  intro p hp
  unfold lookJoin at hp
  rcases List.mem_filterMap.mp hp with ⟨m, hm, hmap⟩
  rcases Option.map_eq_some'.mp hmap with ⟨u, _, hmu⟩
  have hb := (List.mem_filter.mp hm).2
  have hbm : m.board_id = bid := of_decide_eq_true hb
  rw [← hmu]
  exact hbm

theorem lookRows_len (db : DB) (bid : Nat) : (lookRows db bid).length ≤ 10 := by
  unfold lookRows
  rw [List.length_take]
  exact min_le_left _ _

theorem lookRows_sorted (db : DB) (bid : Nat) :
    List.Pairwise (fun p q => q.1.timestamp ≤ p.1.timestamp) (lookRows db bid) := by
  unfold lookRows
  exact List.Pairwise.sublist (List.take_sublist _ _)
    (pairwise_sortDescNat (fun p : MsgRow × String => p.1.timestamp) _)

theorem lookRows_board (db : DB) (bid : Nat) :
    ∀ p ∈ lookRows db bid, p.1.board_id = bid := by
  intro p hp
  unfold lookRows at hp
  have h1 : p ∈ sortDescNat (fun p => p.1.timestamp) (lookJoin db bid) :=
    List.mem_of_mem_take hp
  exact lookJoin_board db bid p ((mem_sortDescNat _ _ _).mp h1)

/-- Claim C4, counterexample: with two posts on the current board sharing one
timestamp, the LOOK row list is not *strictly* descending in the timestamp —
ties are possible, so only the non-strict ordering holds. -/
theorem C4_strict_descending_counterexample :
    lookRows exDB4 1 =
      [(⟨2, 1, 2, "b", 5⟩, "sys"), (⟨1, 1, 1, "a", 5⟩, "alice")] ∧
    ¬ List.Pairwise (fun p q => q.1.timestamp < p.1.timestamp)
      (lookRows exDB4 1) := by
  refine ⟨rfl, ?_⟩
  intro h
  rw [show lookRows exDB4 1 =
    [(⟨2, 1, 2, "b", 5⟩, "sys"), (⟨1, 1, 1, "a", 5⟩, "alice")] from rfl] at h
  have h1 := (List.pairwise_cons.mp h).1 _ (List.mem_cons_self _ _)
  exact absurd h1 (by decide)

/-- Claim C4 (amended): the LOOK row list holds at most 10 rows, is ordered
by *non-strict* descending timestamp (ties between equal timestamps are
possible, breaking strictness), and every row belongs to the queried board;
and JOINBOARD leaves the message store untouched and changes no session
record other than the issuing one, so any other context computes the same
LOOK output before and after. -/
theorem C4_look_bounded_scoped :
    (∀ (db : DB) (bid : Nat),
      (lookRows db bid).length ≤ 10 ∧
      List.Pairwise (fun p q => q.1.timestamp ≤ p.1.timestamp)
        (lookRows db bid) ∧
      ∀ p ∈ lookRows db bid, p.1.board_id = bid) ∧
    (∀ (st : BBSState) (c : Ctx),
      (cmdJOINBOARD st c).1.db = st.db ∧
      (∀ k, k ≠ c.sid →
        assocGet (cmdJOINBOARD st c).1.sessions k = assocGet st.sessions k) ∧
      (∀ c2 : Ctx, (cmdLOOK (cmdJOINBOARD st c).1 c2).2 = (cmdLOOK st c2).2)) := by
  refine ⟨fun db bid =>
    ⟨lookRows_len db bid, lookRows_sorted db bid, lookRows_board db bid⟩,
    fun st c => ?_⟩
  have hdb : (cmdJOINBOARD st c).1.db = st.db := by
    unfold cmdJOINBOARD
    repeat' (first | dsimp only | split)
  refine ⟨hdb, ?_, ?_⟩
  · intro k hk
    unfold cmdJOINBOARD
    repeat' (first | dsimp only | split)
    all_goals first | rfl | exact assocGet_set_ne _ _ _ _ hk
  · intro c2
    unfold cmdLOOK
    dsimp only
    rw [hdb]

theorem C4_look_bounded_scoped_witness :
    ((lookRows exDB 1).length ≤ 10 ∧
      List.Pairwise (fun p q => q.1.timestamp ≤ p.1.timestamp)
        (lookRows exDB 1) ∧
      (∀ p ∈ lookRows exDB 1, p.1.board_id = 1)) ∧
    ((cmdJOINBOARD exState
        ⟨"s2", exAlice, "JOINBOARD", ["Tech"], "JOINBOARD Tech", false, "", 9, 0⟩).1.db =
      exState.db ∧
    assocGet (cmdJOINBOARD exState
        ⟨"s2", exAlice, "JOINBOARD", ["Tech"], "JOINBOARD Tech", false, "", 9, 0⟩).1.sessions
        "s1" =
      assocGet exState.sessions "s1" ∧
    (cmdLOOK (cmdJOINBOARD exState
        ⟨"s2", exAlice, "JOINBOARD", ["Tech"], "JOINBOARD Tech", false, "", 9, 0⟩).1
        ⟨"s1", exSys, "LOOK", [], "LOOK", false, "", 9, 0⟩).2 =
      (cmdLOOK exState ⟨"s1", exSys, "LOOK", [], "LOOK", false, "", 9, 0⟩).2) :=
  ⟨C4_look_bounded_scoped.1 exDB 1,
   (C4_look_bounded_scoped.2 exState
      ⟨"s2", exAlice, "JOINBOARD", ["Tech"], "JOINBOARD Tech", false, "", 9, 0⟩).1,
   (C4_look_bounded_scoped.2 exState
      ⟨"s2", exAlice, "JOINBOARD", ["Tech"], "JOINBOARD Tech", false, "", 9, 0⟩).2.1
     "s1" (by decide),
   (C4_look_bounded_scoped.2 exState
      ⟨"s2", exAlice, "JOINBOARD", ["Tech"], "JOINBOARD Tech", false, "", 9, 0⟩).2.2
     ⟨"s1", exSys, "LOOK", [], "LOOK", false, "", 9, 0⟩⟩

theorem parseCommand_args (input : String) :
    (parseCommand input).2 = (splitWs (jsTrim input)).drop 1 := by
  unfold parseCommand
  split
  · rename_i h
    rw [h]
    rfl
  · split
    · rename_i heq
      rw [heq]
      rfl
    · rename_i c0 rest heq
      rw [heq]
      rfl

/-- Claim C9: the stored SAY body, the queued BROADCAST text and the new
EDITMESSAGE body are all the whitespace-split tokens of the line (minus the
command and, for EDITMESSAGE, the id) re-joined with single spaces and
trimmed; internal whitespace runs collapse, so the raw free text is not
stored verbatim. -/
theorem C9_body_collapse :
    (∀ (st : BBSState) (c : Ctx) (input : String) (uid : Nat),
       c.args = (parseCommand input).2 →
       loggedInUser c.session = some uid →
       jsTrim (jsJoin " " c.args) ≠ "" →
       (cmdSAY st c).1.db.messages =
         st.db.messages ++
           [⟨st.db.nextMessageId,
             if c.session.currentBoardId = 0 then 1 else c.session.currentBoardId,
             uid, specCollapsedTail input 1, c.now⟩]) ∧
    (∀ (st : BBSState) (c : Ctx) (input : String),
       c.args = (parseCommand input).2 →
       isSysOp c.session = true →
       jsTrim (jsJoin " " c.args) ≠ "" →
       (cmdBROADCAST st c).1.broadcasts =
         st.broadcasts ++ [⟨specCollapsedTail input 1, c.now⟩]) ∧
    (∀ (st : BBSState) (c : Ctx) (input a0 : String) (rest : List String)
       (mid : Int),
       c.args = (parseCommand input).2 →
       isSysOp c.session = true →
       c.args = a0 :: rest →
       rest.isEmpty = false →
       jsParseInt a0 = some mid →
       jsTrim (jsJoin " " rest) ≠ "" →
       (cmdEDITMESSAGE st c).1.db.messages =
         st.db.messages.map
           (fun m => if (m.id : Int) = mid
             then { m with body := specCollapsedTail input 2 } else m)) ∧
    (specCollapsedTail "SAY hello   world" 1 = "hello world" ∧
     ("hello world" : String) ≠ "hello   world") := by
  refine ⟨?_, ?_, ?_, by decide, by decide⟩
  · intro st c input uid hpc hlog hne
    have hbody : jsTrim (jsJoin " " c.args) = specCollapsedTail input 1 := by
      rw [hpc, parseCommand_args]
      rfl
    unfold cmdSAY
    rw [hlog]
    try dsimp only
    rw [if_neg hne]
    try dsimp only
    rw [hbody]
  · intro st c input hpc hsys hne
    have hbody : jsTrim (jsJoin " " c.args) = specCollapsedTail input 1 := by
      rw [hpc, parseCommand_args]
      rfl
    unfold cmdBROADCAST
    rw [hsys]
    rw [if_neg (by decide)]
    try dsimp only
    rw [if_neg hne]
    try dsimp only
    rw [hbody]
  · intro st c input a0 rest mid hpc hsys hargs hrest hmid hne
    have h2 : c.args.drop 1 = ((splitWs (jsTrim input)).drop 1).drop 1 := by
      rw [hpc, parseCommand_args]
    rw [hargs] at h2
    have h1 : rest = (splitWs (jsTrim input)).drop 2 := by
      have h3 : (a0 :: rest).drop 1 = rest := rfl
      rw [h3] at h2
      rw [h2, List.drop_drop]
    have hbody : jsTrim (jsJoin " " rest) = specCollapsedTail input 2 := by
      rw [h1]
      rfl
    unfold cmdEDITMESSAGE
    rw [hsys]
    rw [if_neg (by decide)]
    rw [hargs]
    try dsimp only
    rw [if_neg (by rw [hrest]; decide)]
    try dsimp only
    rw [hmid]
    try dsimp only
    rw [if_neg hne]
    try dsimp only
    rw [hbody]
    split <;> rfl

theorem C9_body_collapse_witness :
    ((⟨"s2", exAlice, "SAY", ["hello", "world"], "SAY hello   world", false,
        "", 9, 0⟩ : Ctx).args =
        (parseCommand "SAY hello   world").2 ∧
      loggedInUser exAlice = some 1 ∧
      jsTrim (jsJoin " "
        (⟨"s2", exAlice, "SAY", ["hello", "world"], "SAY hello   world", false,
          "", 9, 0⟩ : Ctx).args) ≠ "") ∧
    (cmdSAY exState
        ⟨"s2", exAlice, "SAY", ["hello", "world"], "SAY hello   world", false,
          "", 9, 0⟩).1.db.messages =
      exState.db.messages ++
        [⟨exState.db.nextMessageId, 1, 1,
          specCollapsedTail "SAY hello   world" 1, 9⟩] :=
  ⟨⟨by decide, by decide, by decide⟩,
   C9_body_collapse.1 exState
     ⟨"s2", exAlice, "SAY", ["hello", "world"], "SAY hello   world", false,
       "", 9, 0⟩
     "SAY hello   world" 1 (by decide) (by decide) (by decide)⟩
